import Mathlib

/-!
# Loss-rate evaluators, interpolation layer and energy grid

A shallow embedding of `include/physical_constants.h`,
`include/CR_spectra/ionisation.h`, `include/gsl_decs.h`,
`include/math_funcs.h` and of the wrappers of `src/wrappers_data.cpp`,
`src/wrappers_radiative.cpp` and `src/wrappers_steadystate.cpp`.

C `double` arithmetic is read over an ordered field `α` (the theorems take
`α := ℝ`); rounding, infinities and NaN are not modelled, and a division by
zero is therefore shown on its divisor, not on its quotient.  The functions
of `<math.h>` that a source function calls (`log`, `exp`, `sqrt`, `log10`,
`pow`) and the constant `M_PI` are arguments of its embedding, and the
theorems pass `Real.log`, `Real.exp`, `Real.sqrt`, `Real.logb 10`, `Real.rpow`
and `Real.pi`.
-/

namespace Congruents

/-! ## physical_constants.h -/

section Constants

variable {α : Type} [LinearOrderedField α]

/-- Electron mass in GeV: `#define m_e__GeV 0.5109989461e-3`. -/
def m_e__GeV : α := 0.5109989461e-3

/-- Electron mass in grams: `#define m_e__g 9.10938356e-28`. -/
def m_e__g : α := 9.10938356e-28

/-- Speed of light in cm/s: `#define c__cmsm1 2.99792458e10`. -/
def c__cmsm1 : α := 2.99792458e10

/-- Planck constant in GeV s: `#define h__GeVs 6.582119569e-25`. -/
def h__GeVs : α := 6.582119569e-25

/-- Elementary charge in esu: `#define e__esu 4.80320425e-10`. -/
def e__esu : α := 4.80320425e-10

/-- Thomson cross-section in mb: `#define sigma_T__mb 0.665245873`. -/
def sigma_T__mb : α := 0.665245873

/-- Millibarn in cm^2: `#define mb__cm2 1e-27`. -/
def mb__cm2 : α := 1e-27

end Constants

/-! ## CR_spectra/ionisation.h -/

section Ionisation

variable {α : Type} [LinearOrderedField α]

/-- Ionisation energy loss rate in GeV/s (`ionisation.h`, lines 17-23). -/
def dEdtm1_ion__GeVsm1 (log : α → α) (E_e__GeV n_H__cmm3 : α) : α :=
  let gamma := E_e__GeV / m_e__GeV
  let mu_ISM : α := 1.1;
  -9.0 / 4.0 * c__cmsm1 * sigma_T__mb * mb__cm2 * m_e__GeV * n_H__cmm3 * mu_ISM *
    (log gamma + 0.91 * 2.0 / 3.0 * log (m_e__GeV * 1.0e9 / 15.0)
      + 2.0 * 0.09 * 2.0 / 3.0 * log (m_e__GeV * 1.0e9 / 41.5))

/-- Derivative of the ionisation loss rate with respect to energy in 1/s
(`ionisation.h`, lines 27-31). -/
def deldelEm1dEdtm1_ion__sm1 (E_e__GeV n_H__cmm3 : α) : α :=
  let mu_ISM : α := 1.1;
  -9.0 / 4.0 * c__cmsm1 * sigma_T__mb * mb__cm2 * m_e__GeV * n_H__cmm3 * mu_ISM *
    (1.0 / E_e__GeV)

/-- Ionisation loss timescale in seconds (`ionisation.h`, lines 34-37). -/
def tau_ion__s (log : α → α) (E_e__GeV n_H__cmm3 : α) : α :=
  -1.0 * E_e__GeV / dEdtm1_ion__GeVsm1 log E_e__GeV n_H__cmm3

/-- Plasma (Coulomb) energy loss rate in GeV/s (`ionisation.h`, lines 40-46). -/
def dEdtm1_plasma__GeVsm1 (log sqrt : α → α) (M_PI : α) (E_e__GeV n_H__cmm3 : α) : α :=
  let gamma := E_e__GeV / m_e__GeV
  let mu_ISM : α := 1.1;
  let nu_p__Hz := sqrt (n_H__cmm3 * mu_ISM / (M_PI * m_e__g)) * e__esu;
  -3.0 / 4.0 * c__cmsm1 * sigma_T__mb * mb__cm2 * m_e__GeV * n_H__cmm3 * mu_ISM *
    (log gamma + 2.0 * log (m_e__GeV / (h__GeVs * nu_p__Hz)))

/-- Energy derivative of the plasma loss rate in 1/s (`ionisation.h`, lines 49-53). -/
def deldelEm1dEdtm1_plasma__sm1 (E_e__GeV n_H__cmm3 : α) : α :=
  let mu_ISM : α := 1.1;
  -3.0 / 4.0 * c__cmsm1 * sigma_T__mb * mb__cm2 * m_e__GeV * n_H__cmm3 * mu_ISM *
    (1.0 / E_e__GeV)

/-- Plasma loss timescale in seconds (`ionisation.h`, lines 56-59). -/
def tau_plasma__s (log sqrt : α → α) (M_PI : α) (E_e__GeV n_H__cmm3 : α) : α :=
  -1.0 * E_e__GeV / dEdtm1_plasma__GeVsm1 log sqrt M_PI E_e__GeV n_H__cmm3

end Ionisation

/-! ## The closed forms of the specification -/

section ClosedForms

variable {α : Type} [LinearOrderedField α]

/-- Thomson cross-section in cm^2, `sigma_T__mb * mb__cm2`. -/
def sigma_T__cm2 : α := sigma_T__mb * mb__cm2

/-- Closed form of the ionisation loss rate as the specification writes it:
`-(9/4) c σ_T m_e n_H μ_ISM [ln(E/m_e) + (2/3)(0.91 ln(m_e·1e9/15) + 2·0.09 ln(m_e·1e9/41.5))]`
with `μ_ISM = 1.1`. -/
def spec_ion_rate (log : α → α) (E n_H : α) : α :=
  -(9 / 4) * c__cmsm1 * sigma_T__cm2 * m_e__GeV * n_H * (11 / 10) *
    (log (E / m_e__GeV)
      + 2 / 3 * (91 / 100 * log (m_e__GeV * 1000000000 / 15)
        + 2 * (9 / 100) * log (m_e__GeV * 1000000000 / (83 / 2))))

/-- Plasma frequency as the specification writes it:
`ν_p = e·sqrt(n_H μ_ISM/(π m_e_grams))` with `μ_ISM = 1.1`. -/
def spec_nu_p (sqrt : α → α) (pi : α) (n_H : α) : α :=
  e__esu * sqrt (n_H * (11 / 10) / (pi * m_e__g))

/-- Closed form of the plasma loss rate as the specification writes it:
`-(3/4) c σ_T m_e n_H μ_ISM [ln(E/m_e) + 2 ln(m_e/(h·ν_p))]`. -/
def spec_plasma_rate (log sqrt : α → α) (pi : α) (E n_H : α) : α :=
  -(3 / 4) * c__cmsm1 * sigma_T__cm2 * m_e__GeV * n_H * (11 / 10) *
    (log (E / m_e__GeV) + 2 * log (m_e__GeV / (h__GeVs * spec_nu_p sqrt pi n_H)))

end ClosedForms

/-! ## Failures of a call -/

/-- How a call fails: an error raised by a GSL routine (the sources never
install a GSL error handler, so the library's own handler ends the call), a
`std::runtime_error` thrown by the binding layer, or the `std::length_error`
of a `std::vector` constructed with a negative count. -/
inductive Failure where
  | gsl_error (gsl_errno : Nat)
  | runtime_error (what : String)
  | length_error (what : String)
  deriving DecidableEq, Repr

/-- GSL error code `GSL_EDOM`: input domain error. -/
def GSL_EDOM : Nat := 1

/-- GSL error code `GSL_EINVAL`: invalid argument supplied by the user. -/
def GSL_EINVAL : Nat := 4

section IonisationCalls

variable {α : Type} [LinearOrderedField α]

/-- Outcome of a call of `dEdtm1_ion__GeVsm1`: the body (lines 18-23) is
arithmetic followed by one `return`, with no test of its arguments, no
`throw` and no error code, so the call returns the value of the expression. -/
def call_dEdtm1_ion__GeVsm1 (log : α → α) (E_e__GeV n_H__cmm3 : α) : Except Failure α :=
  .ok (dEdtm1_ion__GeVsm1 log E_e__GeV n_H__cmm3)

/-- Outcome of a call of `deldelEm1dEdtm1_ion__sm1` (lines 28-31): one `return`. -/
def call_deldelEm1dEdtm1_ion__sm1 (E_e__GeV n_H__cmm3 : α) : Except Failure α :=
  .ok (deldelEm1dEdtm1_ion__sm1 E_e__GeV n_H__cmm3)

/-- Outcome of a call of `dEdtm1_plasma__GeVsm1` (lines 41-46): one `return`. -/
def call_dEdtm1_plasma__GeVsm1 (log sqrt : α → α) (M_PI : α) (E_e__GeV n_H__cmm3 : α) :
    Except Failure α :=
  .ok (dEdtm1_plasma__GeVsm1 log sqrt M_PI E_e__GeV n_H__cmm3)

/-- Outcome of a call of `deldelEm1dEdtm1_plasma__sm1` (lines 50-53): one `return`. -/
def call_deldelEm1dEdtm1_plasma__sm1 (E_e__GeV n_H__cmm3 : α) : Except Failure α :=
  .ok (deldelEm1dEdtm1_plasma__sm1 E_e__GeV n_H__cmm3)

end IonisationCalls

/-! ## The GSL interpolation routines called by gsl_decs.h

C arrays passed as `const double *` are read as functions `Nat → α` from the
index to the element; the element count travels separately, as in C. -/

section GSL

variable {α : Type} [LinearOrderedField α]

/-- Modelled from the spec: the GSL library is not part of the sources.  An
interpolation type carries the minimum number of points it needs ("size ≥ 2
for linear"). -/
structure gsl_interp_type where
  name : String
  min_size : Nat
  deriving DecidableEq, Repr

/-- Modelled from the spec: the linear interpolation type of GSL, which needs
at least two points. -/
def gsl_interp_linear : gsl_interp_type := ⟨"linear", 2⟩

/-- Modelled from the spec: the bilinear 2D interpolation type of GSL, which
needs at least two points on each axis. -/
def gsl_interp2d_bilinear : gsl_interp_type := ⟨"bilinear", 2⟩

/-- Modelled from the spec: the accelerator of GSL, which "remembers the last
located interval". -/
structure gsl_interp_accel where
  cache : Nat
  deriving DecidableEq, Repr

/-- Modelled from the spec: a GSL spline, holding its own copy of the
samples, their count, and the "min/max bounds recorded at build time". -/
structure gsl_spline (α : Type) where
  type : gsl_interp_type
  size : Nat
  x : Nat → α
  y : Nat → α
  xmin : α
  xmax : α

/-- Modelled from the spec: a GSL 2D spline over an `xsize × ysize` grid, the
value at `(i, j)` stored at `zarr[j * xsize + i]`. -/
structure gsl_spline2d (α : Type) where
  type : gsl_interp_type
  xsize : Nat
  ysize : Nat
  xarr : Nat → α
  yarr : Nat → α
  zarr : Nat → α
  xmin : α
  xmax : α
  ymin : α
  ymax : α

/-- Modelled from the spec: `gsl_interp_accel_alloc` returns a fresh
accelerator, whose cached interval is the first one. -/
def gsl_interp_accel_alloc : Except Failure gsl_interp_accel := .ok ⟨0⟩

/-- Modelled from the spec: `gsl_spline_alloc` "fails if fewer than the
minimum required points" are asked for; the data of the new spline is not
yet set. -/
def gsl_spline_alloc (T : gsl_interp_type) (size : Nat) : Except Failure (gsl_spline α) :=
  if size < T.min_size then .error (.gsl_error GSL_EINVAL)
  else .ok { type := T, size := size, x := fun _ => 0, y := fun _ => 0, xmin := 0, xmax := 0 }

/-- The test of GSL on the abscissae: `x_array[i-1] < x_array[i]` for every
`i` from 1 below `size`. -/
def strictly_increasing (x_array : Nat → α) (size : Nat) : Bool :=
  (List.range (size - 1)).all (fun i => decide (x_array i < x_array (i + 1)))

/-- Modelled from the spec: `gsl_spline_init` copies the samples and records
their bounds; it fails "if the independent-variable sequence is not strictly
increasing", or when the count differs from the allocated one. -/
def gsl_spline_init (spline : gsl_spline α) (x_array y_array : Nat → α) (size : Nat) :
    Except Failure (gsl_spline α) :=
  if size ≠ spline.size then .error (.gsl_error GSL_EINVAL)
  else if !strictly_increasing x_array size then .error (.gsl_error GSL_EINVAL)
  else .ok { spline with
    x := x_array, y := y_array, xmin := x_array 0, xmax := x_array (size - 1) }

/-- Modelled from the spec: the "fallback full search" of GSL, a bisection
that returns an index `ilo` in `[index_lo, index_hi)` with
`x_array[ilo] ≤ x < x_array[ilo + 1]` when `x` lies inside the bracket. -/
def gsl_interp_bsearch (x_array : Nat → α) (x : α) (index_lo index_hi : Nat) : Nat :=
  if index_hi > index_lo + 1 then
    let i := (index_hi + index_lo) / 2
    if x_array i > x then gsl_interp_bsearch x_array x index_lo i
    else gsl_interp_bsearch x_array x i index_hi
  else index_lo
termination_by index_hi - index_lo
decreasing_by all_goals omega

/-- Modelled from the spec: the "cached last-interval search" of GSL: the
cached interval is kept when it holds `x`, and a bisection on the side where
`x` lies replaces it otherwise. -/
def gsl_interp_accel_find (a : gsl_interp_accel) (xa : Nat → α) (len : Nat) (x : α) :
    gsl_interp_accel :=
  let x_index := a.cache
  if x < xa x_index then ⟨gsl_interp_bsearch xa x 0 x_index⟩
  else if x ≥ xa (x_index + 1) then ⟨gsl_interp_bsearch xa x x_index (len - 1)⟩
  else a

/-- Modelled from the spec: the value of the piecewise-linear interpolant on
the interval `[x_array[index], x_array[index + 1]]`. -/
def linear_eval (x_array y_array : Nat → α) (index : Nat) (x : α) : α :=
  let x_lo := x_array index
  let x_hi := x_array (index + 1)
  let y_lo := y_array index
  let y_hi := y_array (index + 1)
  let dx := x_hi - x_lo
  if dx > 0 then y_lo + (x - x_lo) / dx * (y_hi - y_lo) else 0

/-- Modelled from the spec: `gsl_spline_eval` fails "with an out-of-domain
error if the query falls outside the stored min/max bounds recorded at build
time"; inside them it locates the interval through the accelerator and
returns the linear interpolant there, with the updated accelerator. -/
def gsl_spline_eval (spline : gsl_spline α) (x : α) (a : gsl_interp_accel) :
    Except Failure (α × gsl_interp_accel) :=
  if x < spline.xmin ∨ x > spline.xmax then .error (.gsl_error GSL_EDOM)
  else
    let a1 := gsl_interp_accel_find a spline.x spline.size x
    .ok (linear_eval spline.x spline.y a1.cache x, a1)

/-- Modelled from the spec: `gsl_spline2d_alloc` fails when an axis has fewer
points than the type needs. -/
def gsl_spline2d_alloc (T : gsl_interp_type) (xsize ysize : Nat) :
    Except Failure (gsl_spline2d α) :=
  if xsize < T.min_size ∨ ysize < T.min_size then .error (.gsl_error GSL_EINVAL)
  else .ok { type := T, xsize := xsize, ysize := ysize, xarr := fun _ => 0, yarr := fun _ => 0,
             zarr := fun _ => 0, xmin := 0, xmax := 0, ymin := 0, ymax := 0 }

/-- Modelled from the spec: `gsl_spline2d_init` copies the table and records
the bounds of both axes; it fails when an axis is not strictly increasing or
a count differs from the allocated one. -/
def gsl_spline2d_init (spline : gsl_spline2d α) (xa ya za : Nat → α) (xsize ysize : Nat) :
    Except Failure (gsl_spline2d α) :=
  if xsize ≠ spline.xsize ∨ ysize ≠ spline.ysize then .error (.gsl_error GSL_EINVAL)
  else if !strictly_increasing xa xsize then .error (.gsl_error GSL_EINVAL)
  else if !strictly_increasing ya ysize then .error (.gsl_error GSL_EINVAL)
  else .ok { spline with
    xarr := xa, yarr := ya, zarr := za,
    xmin := xa 0, xmax := xa (xsize - 1), ymin := ya 0, ymax := ya (ysize - 1) }

/-- Modelled from the spec: the bilinear interpolant on the cell with lower
corner `(xi, yi)`. -/
def bilinear_eval (xarr yarr zarr : Nat → α) (xsize : Nat) (xi yi : Nat) (x y : α) : α :=
  let xmin := xarr xi
  let xmax := xarr (xi + 1)
  let ymin := yarr yi
  let ymax := yarr (yi + 1)
  let zminmin := zarr (yi * xsize + xi)
  let zminmax := zarr ((yi + 1) * xsize + xi)
  let zmaxmin := zarr (yi * xsize + (xi + 1))
  let zmaxmax := zarr ((yi + 1) * xsize + (xi + 1))
  let dx := xmax - xmin
  let dy := ymax - ymin
  let t := (x - xmin) / dx
  let u := (y - ymin) / dy
  (1 - t) * (1 - u) * zminmin + t * (1 - u) * zmaxmin + (1 - t) * u * zminmax
    + t * u * zmaxmax

/-- Modelled from the spec: `gsl_spline2d_eval` fails with an out-of-domain
error when `x` or `y` is outside the recorded bounds of its axis, and returns
the bilinear interpolant otherwise, with both updated accelerators. -/
def gsl_spline2d_eval (spline : gsl_spline2d α) (x y : α) (xa ya : gsl_interp_accel) :
    Except Failure (α × gsl_interp_accel × gsl_interp_accel) :=
  if x < spline.xmin ∨ x > spline.xmax then .error (.gsl_error GSL_EDOM)
  else if y < spline.ymin ∨ y > spline.ymax then .error (.gsl_error GSL_EDOM)
  else
    let xa1 := gsl_interp_accel_find xa spline.xarr spline.xsize x
    let ya1 := gsl_interp_accel_find ya spline.yarr spline.ysize y
    .ok (bilinear_eval spline.xarr spline.yarr spline.zarr spline.xsize xa1.cache ya1.cache x y,
         xa1, ya1)

end GSL

/-! ## gsl_decs.h -/

section GslDecs

variable {α : Type} [LinearOrderedField α]

/-- The 1D spline object (`gsl_decs.h`, lines 18-22); `x_lim` holds
`x_lim[0]` and `x_lim[1]`. -/
structure gsl_spline_object_1D (α : Type) where
  spline : gsl_spline α
  acc : gsl_interp_accel
  x_lim : α × α

/-- The 2D spline object (`gsl_decs.h`, lines 27-34). -/
structure gsl_spline_object_2D (α : Type) where
  spline : gsl_spline2d α
  xacc : gsl_interp_accel
  yacc : gsl_interp_accel
  type : gsl_interp_type
  x_lim : α × α
  y_lim : α × α

/-- Create a 1D spline object from arrays (`gsl_decs.h`, lines 43-57).  The
function itself tests nothing but `n > 0`; an error raised inside one of the
three GSL calls ends the call. -/
def gsl_so1D (n : Nat) (x y : Nat → α) : Except Failure (gsl_spline_object_1D α) := do
  let acc ← gsl_interp_accel_alloc
  let spline ← gsl_spline_alloc gsl_interp_linear n
  let spline ← gsl_spline_init spline x y n
  let x_lim : α × α := if n > 0 then (x 0, x (n - 1)) else (0.0, 0.0)
  return { spline := spline, acc := acc, x_lim := x_lim }

/-- Evaluate a 1D spline (`gsl_decs.h`, lines 65-67): the value of
`gsl_spline_eval`, together with the accelerator as the call leaves it. -/
def gsl_so1D_eval (so : gsl_spline_object_1D α) (x : α) :
    Except Failure (α × gsl_interp_accel) :=
  gsl_spline_eval so.spline x so.acc

/-- Create a 2D spline object from arrays (`gsl_decs.h`, lines 87-112). -/
def gsl_so2D (nx ny : Nat) (x y z : Nat → α) : Except Failure (gsl_spline_object_2D α) := do
  let type := gsl_interp2d_bilinear
  let xacc ← gsl_interp_accel_alloc
  let yacc ← gsl_interp_accel_alloc
  let spline ← gsl_spline2d_alloc type nx ny
  let spline ← gsl_spline2d_init spline x y z nx ny
  let x_lim : α × α := if nx > 0 then (x 0, x (nx - 1)) else (0.0, 0.0)
  let y_lim : α × α := if ny > 0 then (y 0, y (ny - 1)) else (0.0, 0.0)
  return { spline := spline, xacc := xacc, yacc := yacc, type := type,
           x_lim := x_lim, y_lim := y_lim }

/-- Evaluate a 2D spline (`gsl_decs.h`, lines 121-123). -/
def gsl_so2D_eval (so : gsl_spline_object_2D α) (x y : α) :
    Except Failure (α × gsl_interp_accel × gsl_interp_accel) :=
  gsl_spline2d_eval so.spline x y so.xacc so.yacc

end GslDecs

/-! ## math_funcs.h -/

section MathFuncs

variable {α : Type} [LinearOrderedField α]

/-- Create a logarithmically spaced array (`math_funcs.h`, lines 20-34).  The
output pointer is `none` when it is `NULL` and the memory it points to
otherwise; the result is the return code with the memory after the call. -/
def logspace_array (log10 : α → α) (pow : α → α → α) (n : Nat) (min max : α)
    (array : Option (Nat → α)) : Int × Option (Nat → α) :=
  if n = 0 ∨ min ≤ 0 ∨ max ≤ 0 ∨ min ≥ max ∨ array.isNone then (1, array)
  else
    let log_min := log10 min
    let log_max := log10 max
    let delta := (log_max - log_min) / ((n : α) - 1.0)
    (0, array.map fun a =>
      (List.range n).foldl
        (fun (arr : Nat → α) i => Function.update arr i (pow 10.0 (log_min + (i : α) * delta))) a)

end MathFuncs

/-! ## math_funcs.h, continued -/

section MathFuncs2

variable {α : Type} [LinearOrderedField α]

/-- The divisor `n - 1.0` of the step computation of `logspace_array`
(`math_funcs.h`, line 27). -/
def logspace_array_divisor (n : Nat) : α := (n : α) - 1.0

/-- Create a linearly spaced array (`math_funcs.h`, lines 44-61). -/
def linspace_array (n : Nat) (min max : α) (array : Option (Nat → α)) :
    Int × Option (Nat → α) :=
  if n = 0 ∨ min ≥ max ∨ array.isNone then (1, array)
  else if n = 1 then (0, array.map fun a => Function.update a 0 min)
  else
    let delta := (max - min) / ((n : α) - 1.0)
    (0, array.map fun a =>
      (List.range n).foldl
        (fun (arr : Nat → α) i => Function.update arr i (min + (i : α) * delta)) a)

end MathFuncs2

/-! ## The binding layer: wrappers_data.cpp, wrappers_radiative.cpp, wrappers_steadystate.cpp

A `py::array_t<double>` argument is read through `request()`, which gives the
number of elements and the data pointer.  The physics routines the wrappers
call (`eps_IC_3`, `eps_SY_4`, `eps_BS_3`, `CRe_steadystate_solve`) are declared
in headers that are not part of the sources; they are arguments of the
embedding.  A local variable that the source declares and never initialises
holds whatever the stack holds; its content is an argument of the embedding
too. -/

section Wrappers

variable {α : Type} [LinearOrderedField α]

/-- The result of `py::array_t<double>::request()`: element count and data
pointer. -/
structure buffer_info (α : Type) where
  size : Nat
  ptr : Nat → α

/-- Python-facing grid builder (`wrappers_data.cpp`, lines 9-23): `n` is an
`int`, compared with the buffer size after `static_cast<size_t>`; the result
is the output buffer after the call. -/
def logspace_array_wrapper (log10 : α → α) (pow : α → α → α) (n : Int) (min max : α)
    (output : buffer_info α) : Except Failure (buffer_info α) :=
  let buf := output
  if buf.size ≠ (n % 2 ^ 64).toNat then
    .error (.runtime_error "Output array size mismatch")
  else
    let ptr := buf.ptr
    let log_min := log10 min
    let log_max := log10 max
    let delta := (log_max - log_min) / ((n : α) - 1.0)
    .ok { buf with
      ptr := (List.range n.toNat).foldl
        (fun (arr : Nat → α) i => Function.update arr i (pow 10.0 (log_min + (i : α) * delta)))
        ptr }

/-- The arguments that `eps_IC_3_wrapper` passes to `eps_IC_3`
(`wrappers_radiative.cpp`, lines 16-43): the photon energy, the local
`gso2D_IC`, which line 39 declares and nothing initialises, and the spectrum
interpolant. -/
def eps_IC_3_wrapper_args (gso2D_IC : gsl_spline_object_2D α) (E_gam__GeV : α)
    (E_gam_table E_e_table IC_table_2D E_e_spectrum qe_spectrum : buffer_info α) :
    Except Failure (α × gsl_spline_object_2D α × gsl_spline_object_1D α) := do
  let E_gam_buf := E_gam_table
  let E_e_buf := E_e_table
  let IC_buf := IC_table_2D
  let E_e_spec_buf := E_e_spectrum
  let qe_spec_buf := qe_spectrum
  if E_e_spec_buf.size ≠ qe_spec_buf.size then
    throw (.runtime_error "E_e_spectrum and qe_spectrum must have same size")
  let E_e_ptr := E_e_spec_buf.ptr
  let qe_ptr := qe_spec_buf.ptr
  let qe_so ← gsl_so1D E_e_spec_buf.size E_e_ptr qe_ptr
  let _E_gam_tbl := E_gam_buf.ptr
  let _E_e_tbl := E_e_buf.ptr
  let _IC_tbl := IC_buf.ptr
  return (E_gam__GeV, gso2D_IC, qe_so)

/-- Inverse-Compton wrapper (`wrappers_radiative.cpp`, lines 7-50). -/
def eps_IC_3_wrapper
    (eps_IC_3 : α → gsl_spline_object_2D α → gsl_spline_object_1D α → α)
    (gso2D_IC : gsl_spline_object_2D α) (E_gam__GeV : α)
    (E_gam_table E_e_table IC_table_2D E_e_spectrum qe_spectrum : buffer_info α) :
    Except Failure α := do
  let (E, gso2D, qe_so) ←
    eps_IC_3_wrapper_args gso2D_IC E_gam__GeV E_gam_table E_e_table IC_table_2D
      E_e_spectrum qe_spectrum
  let result := eps_IC_3 E gso2D qe_so
  return result

/-- Synchrotron wrapper (`wrappers_radiative.cpp`, lines 52-87). -/
def eps_SY_4_wrapper
    (eps_SY_4 : α → α → gsl_spline_object_1D α → gsl_spline_object_1D α → α)
    (E_gam__GeV B__G : α)
    (sync_freq_table sync_table_1D E_e_spectrum qe_spectrum : buffer_info α) :
    Except Failure α := do
  let sync_freq_buf := sync_freq_table
  let sync_tbl_buf := sync_table_1D
  let E_e_spec_buf := E_e_spectrum
  let qe_spec_buf := qe_spectrum
  if E_e_spec_buf.size ≠ qe_spec_buf.size then
    throw (.runtime_error "E_e_spectrum and qe_spectrum must have same size")
  let sync_freq_ptr := sync_freq_buf.ptr
  let sync_tbl_ptr := sync_tbl_buf.ptr
  let sync_so ← gsl_so1D sync_freq_buf.size sync_freq_ptr sync_tbl_ptr
  let E_e_ptr := E_e_spec_buf.ptr
  let qe_ptr := qe_spec_buf.ptr
  let qe_so ← gsl_so1D E_e_spec_buf.size E_e_ptr qe_ptr
  let result := eps_SY_4 E_gam__GeV B__G sync_so qe_so
  return result

/-- The arguments that `eps_BS_3_wrapper` passes to `eps_BS_3`
(`wrappers_radiative.cpp`, lines 99-116): the photon energy, the density, the
local `gso2D_BS`, which line 113 declares and nothing initialises, and the
spectrum interpolant. -/
def eps_BS_3_wrapper_args (gso2D_BS : gsl_spline_object_2D α) (E_gam__GeV n_H__cmm3 : α)
    (_E_gam_table _E_e_table _BS_table_2D E_e_spectrum qe_spectrum : buffer_info α) :
    Except Failure (α × α × gsl_spline_object_2D α × gsl_spline_object_1D α) := do
  let E_e_spec_buf := E_e_spectrum
  let qe_spec_buf := qe_spectrum
  if E_e_spec_buf.size ≠ qe_spec_buf.size then
    throw (.runtime_error "E_e_spectrum and qe_spectrum must have same size")
  let E_e_ptr := E_e_spec_buf.ptr
  let qe_ptr := qe_spec_buf.ptr
  let qe_so ← gsl_so1D E_e_spec_buf.size E_e_ptr qe_ptr
  return (E_gam__GeV, n_H__cmm3, gso2D_BS, qe_so)

/-- Bremsstrahlung wrapper (`wrappers_radiative.cpp`, lines 89-122). -/
def eps_BS_3_wrapper
    (eps_BS_3 : α → α → gsl_spline_object_2D α → gsl_spline_object_1D α → α)
    (gso2D_BS : gsl_spline_object_2D α) (E_gam__GeV n_H__cmm3 : α)
    (E_gam_table E_e_table BS_table_2D E_e_spectrum qe_spectrum : buffer_info α) :
    Except Failure α := do
  let (E, n_H, gso2D, qe_so) ←
    eps_BS_3_wrapper_args gso2D_BS E_gam__GeV n_H__cmm3 E_gam_table E_e_table BS_table_2D
      E_e_spectrum qe_spectrum
  let result := eps_BS_3 E n_H gso2D qe_so
  return result

/-- The input arguments of the call of `CRe_steadystate_solve`
(`wrappers_steadystate.cpp`, lines 80-95), in the order of the call; the two
output pointers `&qe_1_so`, `&qe_2_so` are results of the call. -/
structure CRe_steadystate_solve_args (α : Type) where
  structure_ : Int
  E_e_lims : α × α
  n_E : Int
  n_H__cmm3 : α
  B__G : α
  h__pc : α
  n_gso2D : Int
  gso2D_IC_Gamma : gsl_spline_object_2D α
  gso2D_BS : gsl_spline_object_2D α
  De_gso1D : gsl_spline_object_1D α
  gso_1D_Q_inject_1 : gsl_spline_object_1D α
  gso_1D_Q_inject_2 : gsl_spline_object_1D α

/-- The arguments that `CRe_steadystate_solve_wrapper` passes to
`CRe_steadystate_solve` (`wrappers_steadystate.cpp`, lines 29-95).  The locals
`gso2D_IC_Gamma` (line 69) and `gso2D_BS` (line 73) are declared and, as the
two `TODO` comments say, not initialised. -/
def CRe_steadystate_solve_wrapper_args
    (gso2D_IC_Gamma gso2D_BS : gsl_spline_object_2D α)
    (structure_ : Int) (E_e_lims__GeV : buffer_info α) (n_E : Int)
    (n_H__cmm3 B__G h__pc : α) (n_gso2D : Int)
    (_E_gam_table _E_e_table _IC_Gamma_table_2D _E_gam_BS_table _E_e_BS_table
      _BS_table_2D : buffer_info α)
    (E_e_diffusion D_e__cm2sm1 E_e_inject Q_inject_1 Q_inject_2 : buffer_info α) :
    Except Failure (CRe_steadystate_solve_args α) := do
  let E_e_lims_buf := E_e_lims__GeV
  if E_e_lims_buf.size ≠ 2 then
    throw (.runtime_error "E_e_lims__GeV must have size 2")
  let E_e_lims : α × α := (E_e_lims_buf.ptr 0, E_e_lims_buf.ptr 1)
  let E_e_diff_buf := E_e_diffusion
  let D_e_buf := D_e__cm2sm1
  if E_e_diff_buf.size ≠ D_e_buf.size then
    throw (.runtime_error "E_e_diffusion and D_e__cm2sm1 must have same size")
  let De_gso1D ← gsl_so1D E_e_diff_buf.size E_e_diff_buf.ptr D_e_buf.ptr
  let E_e_inj_buf := E_e_inject
  let Q1_buf := Q_inject_1
  let Q2_buf := Q_inject_2
  if E_e_inj_buf.size ≠ Q1_buf.size ∨ E_e_inj_buf.size ≠ Q2_buf.size then
    throw (.runtime_error "Injection arrays must have same size")
  let gso_1D_Q_inject_1 ← gsl_so1D E_e_inj_buf.size E_e_inj_buf.ptr Q1_buf.ptr
  let gso_1D_Q_inject_2 ← gsl_so1D E_e_inj_buf.size E_e_inj_buf.ptr Q2_buf.ptr
  return { structure_ := structure_, E_e_lims := E_e_lims, n_E := n_E,
           n_H__cmm3 := n_H__cmm3, B__G := B__G, h__pc := h__pc, n_gso2D := n_gso2D,
           gso2D_IC_Gamma := gso2D_IC_Gamma, gso2D_BS := gso2D_BS, De_gso1D := De_gso1D,
           gso_1D_Q_inject_1 := gso_1D_Q_inject_1, gso_1D_Q_inject_2 := gso_1D_Q_inject_2 }

/-- The loop of lines 113-116 of `wrappers_steadystate.cpp`: both output
splines are evaluated at each energy in turn, each through its own
accelerator. -/
def eval_qe_out (qe_1_so qe_2_so : gsl_spline_object_1D α) :
    List α → Except Failure (List α × List α)
  | [] => .ok ([], [])
  | E :: Es => do
    let (v1, a1) ← gsl_so1D_eval qe_1_so E
    let (v2, a2) ← gsl_so1D_eval qe_2_so E
    let (qe_1_out, qe_2_out) ← eval_qe_out { qe_1_so with acc := a1 } { qe_2_so with acc := a2 } Es
    return (v1 :: qe_1_out, v2 :: qe_2_out)

/-- Steady-state solver wrapper (`wrappers_steadystate.cpp`, lines 8-128).
`CRe_steadystate_solve` gives its return code with the two splines it writes
through `&qe_1_so` and `&qe_2_so`.  The result is the returned NumPy array. -/
def CRe_steadystate_solve_wrapper (log exp : α → α)
    (CRe_steadystate_solve : CRe_steadystate_solve_args α →
      Int × gsl_spline_object_1D α × gsl_spline_object_1D α)
    (gso2D_IC_Gamma gso2D_BS : gsl_spline_object_2D α)
    (structure_ : Int) (E_e_lims__GeV : buffer_info α) (n_E : Int)
    (n_H__cmm3 B__G h__pc : α) (n_gso2D : Int)
    (E_gam_table E_e_table IC_Gamma_table_2D E_gam_BS_table E_e_BS_table
      BS_table_2D : buffer_info α)
    (E_e_diffusion D_e__cm2sm1 E_e_inject Q_inject_1 Q_inject_2 : buffer_info α) :
    Except Failure (List α) := do
  let args ← CRe_steadystate_solve_wrapper_args gso2D_IC_Gamma gso2D_BS structure_
    E_e_lims__GeV n_E n_H__cmm3 B__G h__pc n_gso2D E_gam_table E_e_table IC_Gamma_table_2D
    E_gam_BS_table E_e_BS_table BS_table_2D E_e_diffusion D_e__cm2sm1 E_e_inject Q_inject_1
    Q_inject_2
  let (result, qe_1_so, qe_2_so) := CRe_steadystate_solve args
  if result ≠ 0 then
    throw (.runtime_error "CRe_steadystate_solve failed")
  if n_E < 0 then
    throw (.length_error "cannot create std::vector larger than max_size()")
  let E_e_lims := args.E_e_lims
  let log_E_min := log E_e_lims.1
  let log_E_max := log E_e_lims.2
  let E_out := (List.range n_E.toNat).map fun (i : Nat) =>
    let log_E := log_E_min + (log_E_max - log_E_min) * (i : α) / ((n_E : α) - 1.0)
    exp log_E
  let (qe_1_out, _qe_2_out) ← eval_qe_out qe_1_so qe_2_so E_out
  let output := qe_1_out
  return output

/-- A table of the two samples 1 and 2, used as example input. -/
def ex_buffer : buffer_info α := ⟨2, fun i => (i : α) + 1⟩

/-- The interpolant that `gsl_so1D` builds from the example table taken as
both abscissae and ordinates. -/
def ex_so_of_buffer : gsl_spline_object_1D α :=
  { spline := { type := gsl_interp_linear, size := 2, x := (ex_buffer (α := α)).ptr,
                y := (ex_buffer (α := α)).ptr, xmin := (ex_buffer (α := α)).ptr 0,
                xmax := (ex_buffer (α := α)).ptr (2 - 1) },
    acc := ⟨0⟩, x_lim := ((ex_buffer (α := α)).ptr 0, (ex_buffer (α := α)).ptr (2 - 1)) }

/-- An interpolant through `(1, y0)` and `(2, y1)`, used as example output of
the solver. -/
def ex_so (y0 y1 : α) : gsl_spline_object_1D α :=
  { spline := { type := gsl_interp_linear, size := 2, x := fun i => (i : α) + 1,
                y := fun i => if i = 0 then y0 else y1, xmin := 1, xmax := 2 },
    acc := ⟨0⟩, x_lim := (1, 2) }

/-- A content of an uninitialised 2D spline object whose limits all hold `v`,
used as example stack content. -/
def ex_stack (v : α) : gsl_spline_object_2D α :=
  { spline := { type := gsl_interp2d_bilinear, xsize := 0, ysize := 0, xarr := fun _ => v,
                yarr := fun _ => v, zarr := fun _ => v, xmin := v, xmax := v, ymin := v,
                ymax := v },
    xacc := ⟨0⟩, yacc := ⟨0⟩, type := gsl_interp2d_bilinear, x_lim := (v, v), y_lim := (v, v) }

end Wrappers

/-! ## Loss-rate evaluators: closed forms and derivatives -/

/-- The ionisation loss rate is affine in `log (E / m_e)`: the form used to
differentiate it and to bound its sign. -/
theorem dEdtm1_ion_eq (log : ℝ → ℝ) (E n : ℝ) :
    dEdtm1_ion__GeVsm1 log E n =
      -(9 / 4) * c__cmsm1 * sigma_T__cm2 * m_e__GeV * n * (11 / 10) *
        (log (E / m_e__GeV)
          + (91 / 150 * log (m_e__GeV * 1000000000 / 15)
            + 3 / 25 * log (m_e__GeV * 1000000000 / (83 / 2)))) := by
  simp only [dEdtm1_ion__GeVsm1, sigma_T__cm2]
  ring_nf

/-- The plasma loss rate is affine in `log (E / m_e)`. -/
theorem dEdtm1_plasma_eq (log sqrt : ℝ → ℝ) (pi E n : ℝ) :
    dEdtm1_plasma__GeVsm1 log sqrt pi E n =
      -(3 / 4) * c__cmsm1 * sigma_T__cm2 * m_e__GeV * n * (11 / 10) *
        (log (E / m_e__GeV)
          + 2 * log (m_e__GeV / (h__GeVs * (sqrt (n * (11 / 10) / (pi * m_e__g)) * e__esu)))) := by
  simp only [dEdtm1_plasma__GeVsm1, sigma_T__cm2]
  ring_nf

/-- Derivative of `E ↦ k * (log (E / m) + b)` at a point `E ≠ 0`, for `m ≠ 0`. -/
theorem hasDerivAt_affine_log (k m b E : ℝ) (hm : m ≠ 0) (hE : E ≠ 0) :
    HasDerivAt (fun x : ℝ => k * (Real.log (x / m) + b)) (k * (1 / E)) E := by
  have h1 : HasDerivAt (fun x : ℝ => x / m) (1 / m) E := by
    simpa using (hasDerivAt_id E).div_const m
  have h2 : HasDerivAt (fun x : ℝ => Real.log (x / m)) (1 / m / (E / m)) E :=
    h1.log (div_ne_zero hE hm)
  have h3 : (1 / m / (E / m) : ℝ) = 1 / E := by
    field_simp
  rw [h3] at h2
  exact (h2.add_const b).const_mul k

theorem m_e__GeV_pos : (0 : ℝ) < m_e__GeV := by
  norm_num [m_e__GeV]

/-- C1: for every electron energy `E > 0` and density `n_H > 0` the ionisation
loss rate computed by `dEdtm1_ion__GeVsm1`, read over the reals, equals the
closed form of the specification; in particular at `E = 1e-3` GeV, `n_H = 1.0`
it equals that closed form with every constant written out. -/
theorem C1_ion_closed_form (E n_H : ℝ) (hE : 0 < E) (hn : 0 < n_H) :
    dEdtm1_ion__GeVsm1 Real.log E n_H = spec_ion_rate Real.log E n_H ∧
    dEdtm1_ion__GeVsm1 Real.log 1e-3 1.0 =
      -(9 / 4) * 2.99792458e10 * (0.665245873 * 1e-27) * 0.5109989461e-3 * 1.0 * 1.1 *
        (Real.log (1e-3 / 0.5109989461e-3)
          + 2 / 3 * (0.91 * Real.log (0.5109989461e-3 * 1e9 / 15)
            + 2 * 0.09 * Real.log (0.5109989461e-3 * 1e9 / 41.5))) := by
  have _h := And.intro hE hn
  constructor
  · rw [dEdtm1_ion_eq]
    simp only [spec_ion_rate]
    ring
  · rw [dEdtm1_ion_eq]
    simp only [sigma_T__cm2, c__cmsm1, sigma_T__mb, mb__cm2, m_e__GeV]
    norm_num
    ring

/-- Witness of C1 at `E = 2`, `n_H = 3`. -/
theorem C1_ion_closed_form_witness :
    (0 : ℝ) < 2 ∧ (0 : ℝ) < 3 ∧
      dEdtm1_ion__GeVsm1 Real.log 2 3 = spec_ion_rate Real.log 2 3 :=
  ⟨by norm_num, by norm_num, (C1_ion_closed_form 2 3 (by norm_num) (by norm_num)).1⟩

/-- C2: for every `n_H` and every `E > 0`, `deldelEm1dEdtm1_ion__sm1 E n_H`
equals `-(9/4)·c·σ_T·m_e·n_H·μ_ISM/E` and is the derivative with respect to the
energy of `E ↦ dEdtm1_ion__GeVsm1 E n_H` at `E`. -/
theorem C2_ion_derivative (E n_H : ℝ) (hE : 0 < E) :
    deldelEm1dEdtm1_ion__sm1 E n_H =
        -(9 / 4) * c__cmsm1 * sigma_T__cm2 * m_e__GeV * n_H * (11 / 10) / E ∧
    HasDerivAt (fun x : ℝ => dEdtm1_ion__GeVsm1 Real.log x n_H)
      (deldelEm1dEdtm1_ion__sm1 E n_H) E := by
  have hval : deldelEm1dEdtm1_ion__sm1 E n_H =
      -(9 / 4) * c__cmsm1 * sigma_T__cm2 * m_e__GeV * n_H * (11 / 10) * (1 / E) := by
    simp only [deldelEm1dEdtm1_ion__sm1, sigma_T__cm2]
    ring
  refine ⟨by rw [hval]; ring, ?_⟩
  rw [hval]
  have hfun : (fun x : ℝ => dEdtm1_ion__GeVsm1 Real.log x n_H) =
      fun x : ℝ => -(9 / 4) * c__cmsm1 * sigma_T__cm2 * m_e__GeV * n_H * (11 / 10) *
        (Real.log (x / m_e__GeV)
          + (91 / 150 * Real.log (m_e__GeV * 1000000000 / 15)
            + 3 / 25 * Real.log (m_e__GeV * 1000000000 / (83 / 2)))) := by
    funext x
    exact dEdtm1_ion_eq Real.log x n_H
  rw [hfun]
  exact hasDerivAt_affine_log _ _ _ E m_e__GeV_pos.ne' hE.ne'

/-- Witness of C2 at `E = 2`, `n_H = 3`. -/
theorem C2_ion_derivative_witness :
    (0 : ℝ) < 2 ∧
      HasDerivAt (fun x : ℝ => dEdtm1_ion__GeVsm1 Real.log x 3)
        (deldelEm1dEdtm1_ion__sm1 2 3) 2 :=
  ⟨by norm_num, (C2_ion_derivative 2 3 (by norm_num)).2⟩

/-- C3: for every `E > 0` and `n_H > 0` the plasma loss rate computed by
`dEdtm1_plasma__GeVsm1`, read over the reals, equals
`-(3/4)·c·σ_T·m_e·n_H·μ_ISM·[ln(E/m_e) + 2·ln(m_e/(h·ν_p))]` with `μ_ISM = 1.1`
and `ν_p = e·sqrt(n_H·μ_ISM/(π·m_e_grams))`. -/
theorem C3_plasma_closed_form (E n_H : ℝ) (hE : 0 < E) (hn : 0 < n_H) :
    dEdtm1_plasma__GeVsm1 Real.log Real.sqrt Real.pi E n_H =
      spec_plasma_rate Real.log Real.sqrt Real.pi E n_H := by
  have _h := And.intro hE hn
  rw [dEdtm1_plasma_eq]
  simp only [spec_plasma_rate, spec_nu_p]
  rw [mul_comm (Real.sqrt _) e__esu]

/-- Witness of C3 at `E = 2`, `n_H = 3`. -/
theorem C3_plasma_closed_form_witness :
    (0 : ℝ) < 2 ∧ (0 : ℝ) < 3 ∧
      dEdtm1_plasma__GeVsm1 Real.log Real.sqrt Real.pi 2 3 =
        spec_plasma_rate Real.log Real.sqrt Real.pi 2 3 :=
  ⟨by norm_num, by norm_num, C3_plasma_closed_form 2 3 (by norm_num) (by norm_num)⟩

/-- C4: for every `n_H > 0` and every `E > 0`, `deldelEm1dEdtm1_plasma__sm1 E n_H`
equals `-(3/4)·c·σ_T·m_e·n_H·μ_ISM/E` and is the derivative with respect to the
energy of `E ↦ dEdtm1_plasma__GeVsm1 E n_H` at `E`; the plasma-frequency term
does not depend on `E`. -/
theorem C4_plasma_derivative (E n_H : ℝ) (hE : 0 < E) (hn : 0 < n_H) :
    deldelEm1dEdtm1_plasma__sm1 E n_H =
        -(3 / 4) * c__cmsm1 * sigma_T__cm2 * m_e__GeV * n_H * (11 / 10) / E ∧
    HasDerivAt (fun x : ℝ => dEdtm1_plasma__GeVsm1 Real.log Real.sqrt Real.pi x n_H)
      (deldelEm1dEdtm1_plasma__sm1 E n_H) E := by
  have _h := hn
  have hval : deldelEm1dEdtm1_plasma__sm1 E n_H =
      -(3 / 4) * c__cmsm1 * sigma_T__cm2 * m_e__GeV * n_H * (11 / 10) * (1 / E) := by
    simp only [deldelEm1dEdtm1_plasma__sm1, sigma_T__cm2]
    ring
  refine ⟨by rw [hval]; ring, ?_⟩
  rw [hval]
  have hfun : (fun x : ℝ => dEdtm1_plasma__GeVsm1 Real.log Real.sqrt Real.pi x n_H) =
      fun x : ℝ => -(3 / 4) * c__cmsm1 * sigma_T__cm2 * m_e__GeV * n_H * (11 / 10) *
        (Real.log (x / m_e__GeV)
          + 2 * Real.log (m_e__GeV /
              (h__GeVs * (Real.sqrt (n_H * (11 / 10) / (Real.pi * m_e__g)) * e__esu)))) := by
    funext x
    exact dEdtm1_plasma_eq Real.log Real.sqrt Real.pi x n_H
  rw [hfun]
  exact hasDerivAt_affine_log _ _ _ E m_e__GeV_pos.ne' hE.ne'

/-- Witness of C4 at `E = 2`, `n_H = 3`. -/
theorem C4_plasma_derivative_witness :
    (0 : ℝ) < 2 ∧ (0 : ℝ) < 3 ∧
      HasDerivAt (fun x : ℝ => dEdtm1_plasma__GeVsm1 Real.log Real.sqrt Real.pi x 3)
        (deldelEm1dEdtm1_plasma__sm1 2 3) 2 :=
  ⟨by norm_num, by norm_num, (C4_plasma_derivative 2 3 (by norm_num) (by norm_num)).2⟩

/-! ## Sign of the loss rates -/

theorem log_lt_nat_of_lt_pow (x : ℝ) (k : ℕ) (hx : 0 < x) (h : x < (27 / 10 : ℝ) ^ k) :
    Real.log x < k := by
  rw [Real.log_lt_iff_lt_exp hx, ← Real.exp_one_pow]
  have he : (27 / 10 : ℝ) ≤ Real.exp 1 := by
    have := Real.exp_one_gt_d9
    linarith
  exact lt_of_lt_of_le h (pow_le_pow_left₀ (by norm_num) he k)

theorem nat_lt_log_of_pow_lt (x : ℝ) (k : ℕ) (h : (28 / 10 : ℝ) ^ k < x) :
    (k : ℝ) < Real.log x := by
  have hx : 0 < x := lt_trans (by positivity) h
  rw [Real.lt_log_iff_exp_lt hx, ← Real.exp_one_pow]
  have he : Real.exp 1 ≤ (28 / 10 : ℝ) := by
    have := Real.exp_one_lt_d9
    linarith
  exact lt_of_le_of_lt (pow_le_pow_left₀ (Real.exp_pos 1).le he k) h

theorem log_lt_neg_nat_of_mul_pow_lt (x : ℝ) (k : ℕ) (hx : 0 < x)
    (h : x * (28 / 10 : ℝ) ^ k < 1) : Real.log x < -(k : ℝ) := by
  have h1 : (k : ℝ) < Real.log x⁻¹ := by
    apply nat_lt_log_of_pow_lt
    rw [lt_inv_comm₀ (by positivity) hx]
    rw [← one_div, lt_div_iff₀ (by positivity)]
    simpa [mul_comm] using h
  rw [Real.log_inv] at h1
  linarith

theorem neg_nat_lt_log_of_lt_mul_pow (x : ℝ) (k : ℕ) (hx : 0 < x)
    (h : 1 < x * (27 / 10 : ℝ) ^ k) : -(k : ℝ) < Real.log x := by
  have h1 : Real.log x⁻¹ < (k : ℝ) := by
    apply log_lt_nat_of_lt_pow _ _ (inv_pos.mpr hx)
    rw [inv_lt_comm₀ hx (by positivity)]
    rw [← one_div, div_lt_iff₀ (by positivity)]
    simpa [mul_comm] using h
  rw [Real.log_inv] at h1
  linarith

/-- The constant part of the bracket of the ionisation loss rate,
`(2/3)(0.91 ln(m_e·1e9/15) + 2·0.09 ln(m_e·1e9/41.5))`, lies between 7 and 8. -/
theorem ion_bracket_const_bounds :
    7 < 91 / 150 * Real.log ((m_e__GeV : ℝ) * 1000000000 / 15)
          + 3 / 25 * Real.log ((m_e__GeV : ℝ) * 1000000000 / (83 / 2)) ∧
    91 / 150 * Real.log ((m_e__GeV : ℝ) * 1000000000 / 15)
          + 3 / 25 * Real.log ((m_e__GeV : ℝ) * 1000000000 / (83 / 2)) < 8 := by
  have ha1 : ((10 : ℕ) : ℝ) < Real.log ((m_e__GeV : ℝ) * 1000000000 / 15) :=
    nat_lt_log_of_pow_lt _ 10 (by norm_num [m_e__GeV])
  have ha2 : Real.log ((m_e__GeV : ℝ) * 1000000000 / 15) < ((11 : ℕ) : ℝ) :=
    log_lt_nat_of_lt_pow _ 11 (by norm_num [m_e__GeV]) (by norm_num [m_e__GeV])
  have hb1 : ((9 : ℕ) : ℝ) < Real.log ((m_e__GeV : ℝ) * 1000000000 / (83 / 2)) :=
    nat_lt_log_of_pow_lt _ 9 (by norm_num [m_e__GeV])
  have hb2 : Real.log ((m_e__GeV : ℝ) * 1000000000 / (83 / 2)) < ((10 : ℕ) : ℝ) :=
    log_lt_nat_of_lt_pow _ 10 (by norm_num [m_e__GeV]) (by norm_num [m_e__GeV])
  push_cast at ha1 ha2 hb1 hb2
  constructor <;> linarith

/-- The common factor `c σ_T m_e μ_ISM` of the loss rates is positive. -/
theorem rate_factor_pos : (0 : ℝ) < c__cmsm1 * sigma_T__cm2 * m_e__GeV * (11 / 10) := by
  norm_num [c__cmsm1, sigma_T__cm2, sigma_T__mb, mb__cm2, m_e__GeV]

/-- Sign of the ionisation loss rate: for `n_H > 0` it is negative exactly when
the bracket is positive. -/
theorem dEdtm1_ion_neg_iff (E n : ℝ) (hn : 0 < n) :
    dEdtm1_ion__GeVsm1 Real.log E n < 0 ↔
      0 < Real.log (E / m_e__GeV)
          + (91 / 150 * Real.log ((m_e__GeV : ℝ) * 1000000000 / 15)
            + 3 / 25 * Real.log ((m_e__GeV : ℝ) * 1000000000 / (83 / 2))) := by
  rw [dEdtm1_ion_eq]
  have hf := rate_factor_pos
  have hk : (0 : ℝ) < 9 / 4 * (c__cmsm1 * sigma_T__cm2 * m_e__GeV * (11 / 10)) * n := by
    positivity
  constructor
  · intro h
    by_contra hneg
    push_neg at hneg
    have := mul_nonpos_of_nonneg_of_nonpos hk.le hneg
    nlinarith
  · intro h
    have := mul_pos hk h
    nlinarith

/-- Sign of the plasma loss rate: for `n_H > 0` it is negative exactly when
the bracket is positive. -/
theorem dEdtm1_plasma_neg_iff (E n : ℝ) (hn : 0 < n) :
    dEdtm1_plasma__GeVsm1 Real.log Real.sqrt Real.pi E n < 0 ↔
      0 < Real.log (E / m_e__GeV)
          + 2 * Real.log (m_e__GeV /
              (h__GeVs * (Real.sqrt (n * (11 / 10) / (Real.pi * m_e__g)) * e__esu))) := by
  rw [dEdtm1_plasma_eq]
  have hf := rate_factor_pos
  have hk : (0 : ℝ) < 3 / 4 * (c__cmsm1 * sigma_T__cm2 * m_e__GeV * (11 / 10)) * n := by
    positivity
  constructor
  · intro h
    by_contra hneg
    push_neg at hneg
    have := mul_nonpos_of_nonneg_of_nonpos hk.le hneg
    nlinarith
  · intro h
    have := mul_pos hk h
    nlinarith

/-- The bracket of the plasma loss rate is positive exactly when
`μ_ISM n_H (h e)^2 < E m_e (π m_e_grams)`. -/
theorem plasma_bracket_pos_iff (E n : ℝ) (hE : 0 < E) (hn : 0 < n) :
    0 < Real.log (E / m_e__GeV)
          + 2 * Real.log (m_e__GeV /
              (h__GeVs * (Real.sqrt (n * (11 / 10) / (Real.pi * m_e__g)) * e__esu))) ↔
      11 / 10 * n * (h__GeVs * e__esu) ^ 2 < E * m_e__GeV * (Real.pi * m_e__g) := by
  have hm : (0 : ℝ) < m_e__GeV := m_e__GeV_pos
  have hh : (0 : ℝ) < h__GeVs := by norm_num [h__GeVs]
  have he : (0 : ℝ) < e__esu := by norm_num [e__esu]
  have hg : (0 : ℝ) < m_e__g := by norm_num [m_e__g]
  have hpg : 0 < Real.pi * m_e__g := mul_pos Real.pi_pos hg
  have hX : 0 < n * (11 / 10) / (Real.pi * m_e__g) := by positivity
  have hs : 0 < Real.sqrt (n * (11 / 10) / (Real.pi * m_e__g)) := Real.sqrt_pos.mpr hX
  have hss : Real.sqrt (n * (11 / 10) / (Real.pi * m_e__g)) ^ 2
      = n * (11 / 10) / (Real.pi * m_e__g) := Real.sq_sqrt hX.le
  generalize Real.sqrt (n * (11 / 10) / (Real.pi * m_e__g)) = s at hs hss
  have hD : 0 < h__GeVs * (s * e__esu) := by positivity
  have hbr : Real.log (E / m_e__GeV) + 2 * Real.log (m_e__GeV / (h__GeVs * (s * e__esu)))
      = Real.log (E / m_e__GeV * (m_e__GeV / (h__GeVs * (s * e__esu))) ^ 2) := by
    rw [Real.log_mul (by positivity) (by positivity), Real.log_pow]
    push_cast
    ring
  have hq : E / m_e__GeV * (m_e__GeV / (h__GeVs * (s * e__esu))) ^ 2
      = E * m_e__GeV / (h__GeVs * (s * e__esu)) ^ 2 := by
    field_simp
    ring
  have hD2 : (h__GeVs * (s * e__esu)) ^ 2
      = 11 / 10 * n * (h__GeVs * e__esu) ^ 2 / (Real.pi * m_e__g) := by
    rw [mul_pow, mul_pow, hss]
    field_simp
    ring
  rw [hbr, Real.log_pos_iff (by positivity), hq, lt_div_iff₀ (by positivity), one_mul, hD2,
    div_lt_iff₀ hpg]

/-- Counterexample to C5 as stated: at `E = 1e-10` GeV and `n_H = 1` (both
positive) the ionisation loss rate `dEdtm1_ion__GeVsm1` is not negative. -/
theorem C5_counterexample :
    (0 : ℝ) < 1e-10 ∧ (0 : ℝ) < 1 ∧ ¬ (dEdtm1_ion__GeVsm1 Real.log 1e-10 1 < 0) := by
  refine ⟨by norm_num, by norm_num, ?_⟩
  rw [dEdtm1_ion_neg_iff _ _ one_pos]
  have hK := ion_bracket_const_bounds.2
  have hg : Real.log ((1e-10 : ℝ) / m_e__GeV) < -((8 : ℕ) : ℝ) :=
    log_lt_neg_nat_of_mul_pow_lt _ 8 (by norm_num [m_e__GeV]) (by norm_num [m_e__GeV])
  push_cast at hg
  linarith

/-- C5 (amended): for every `E > 0` and `n_H > 0` the ionisation loss rate is
strictly negative exactly when `ln(E/m_e)` exceeds minus the constant part of
its bracket, which holds for every `E ≥ 1e-6` GeV; the plasma loss rate is
strictly negative exactly when `μ_ISM·n_H·(h·e)^2 < E·m_e·π·m_e_grams`, which
holds for every `E ≥ 1e-6` GeV when `n_H ≤ 1e30`. -/
theorem C5_loss_rates_negative_amended (E n_H : ℝ) (hE : 0 < E) (hn : 0 < n_H) :
    (dEdtm1_ion__GeVsm1 Real.log E n_H < 0 ↔
      -(2 / 3 * (0.91 * Real.log ((m_e__GeV : ℝ) * 1e9 / 15)
          + 2 * 0.09 * Real.log ((m_e__GeV : ℝ) * 1e9 / 41.5))) < Real.log (E / m_e__GeV)) ∧
    (1e-6 ≤ E → dEdtm1_ion__GeVsm1 Real.log E n_H < 0) ∧
    (dEdtm1_plasma__GeVsm1 Real.log Real.sqrt Real.pi E n_H < 0 ↔
      1.1 * n_H * (h__GeVs * e__esu) ^ 2 < E * m_e__GeV * (Real.pi * m_e__g)) ∧
    (1e-6 ≤ E → n_H ≤ 1e30 →
      dEdtm1_plasma__GeVsm1 Real.log Real.sqrt Real.pi E n_H < 0) := by
  have hpl := (dEdtm1_plasma_neg_iff E n_H hn).trans (plasma_bracket_pos_iff E n_H hE hn)
  have h11 : (1.1 : ℝ) = 11 / 10 := by norm_num
  refine ⟨?_, ?_, ?_, ?_⟩
  · rw [dEdtm1_ion_neg_iff _ _ hn]
    norm_num
    constructor <;> intro h <;> linarith
  · intro hE6
    rw [dEdtm1_ion_neg_iff _ _ hn]
    have hK := ion_bracket_const_bounds.1
    have h1 : -((7 : ℕ) : ℝ) < Real.log ((1e-6 : ℝ) / m_e__GeV) :=
      neg_nat_lt_log_of_lt_mul_pow _ 7 (by norm_num [m_e__GeV]) (by norm_num [m_e__GeV])
    have h2 : Real.log ((1e-6 : ℝ) / m_e__GeV) ≤ Real.log (E / m_e__GeV) :=
      Real.log_le_log (by norm_num [m_e__GeV])
        (div_le_div_of_nonneg_right hE6 m_e__GeV_pos.le)
    push_cast at h1
    linarith
  · rw [h11]
    exact hpl
  · intro hE6 hn30
    rw [hpl]
    have hpi := Real.pi_gt_three
    have hg : (0 : ℝ) < m_e__g := by norm_num [m_e__g]
    have hm : (0 : ℝ) < m_e__GeV := m_e__GeV_pos
    have h1 : 11 / 10 * n_H * (h__GeVs * e__esu) ^ 2
        ≤ 11 / 10 * 1e30 * ((h__GeVs : ℝ) * e__esu) ^ 2 := by
      have : (0 : ℝ) ≤ (h__GeVs * e__esu) ^ 2 := sq_nonneg _
      nlinarith
    have h2 : (1e-6 : ℝ) * m_e__GeV * (3 * m_e__g) ≤ E * m_e__GeV * (Real.pi * m_e__g) := by
      have h3 : (3 : ℝ) * m_e__g ≤ Real.pi * m_e__g := by nlinarith
      have h4 : (1e-6 : ℝ) * m_e__GeV ≤ E * m_e__GeV := by nlinarith
      have h5 : (0 : ℝ) ≤ 3 * m_e__g := by positivity
      have h6 : (0 : ℝ) ≤ E * m_e__GeV := by positivity
      exact mul_le_mul h4 h3 h5 h6
    have h3 : 11 / 10 * 1e30 * ((h__GeVs : ℝ) * e__esu) ^ 2
        < (1e-6 : ℝ) * m_e__GeV * (3 * m_e__g) := by
      norm_num [h__GeVs, e__esu, m_e__GeV, m_e__g]
    linarith

/-- Witness of the amended C5 at `E = 1`, `n_H = 1`: both rates are negative. -/
theorem C5_loss_rates_negative_amended_witness :
    (0 : ℝ) < 1 ∧ dEdtm1_ion__GeVsm1 Real.log 1 1 < 0 ∧
      dEdtm1_plasma__GeVsm1 Real.log Real.sqrt Real.pi 1 1 < 0 :=
  ⟨by norm_num,
   (C5_loss_rates_negative_amended 1 1 (by norm_num) (by norm_num)).2.1 (by norm_num),
   (C5_loss_rates_negative_amended 1 1 (by norm_num) (by norm_num)).2.2.2
      (by norm_num) (by norm_num)⟩

/-! ## Failure behaviour of the loss-rate evaluators -/

/-- Counterexample to C6 as stated: with `n_H = 0` (and `E = 1`) the call of
`dEdtm1_ion__GeVsm1` returns the number 0, and with `E = -1` (and `n_H = 1`)
the call of `deldelEm1dEdtm1_ion__sm1` returns a positive number; neither
call fails. -/
theorem C6_counterexample :
    (0 : ℝ) ≤ 0 ∧ call_dEdtm1_ion__GeVsm1 Real.log (1 : ℝ) 0 = .ok 0 ∧
    (-1 : ℝ) ≤ 0 ∧ ∃ v : ℝ, 0 < v ∧ call_deldelEm1dEdtm1_ion__sm1 (-1 : ℝ) 1 = .ok v := by
  refine ⟨le_refl _, ?_, by norm_num, ?_⟩
  · simp [call_dEdtm1_ion__GeVsm1, dEdtm1_ion__GeVsm1]
  · refine ⟨deldelEm1dEdtm1_ion__sm1 (-1 : ℝ) 1, ?_, rfl⟩
    norm_num [deldelEm1dEdtm1_ion__sm1, c__cmsm1, sigma_T__mb, mb__cm2, m_e__GeV]

/-- C6 (amended): the four loss-rate evaluators of `ionisation.h` have no
failure path: for every `E_e` and `n_H`, also non-positive ones, each call
returns a number; for `E_e > 0` and any `n_H` the ionisation rate returned is
the closed form of the specification, and for `E_e ≠ 0` and any `n_H` the two
derivative evaluators return `-(9/4)·c·σ_T·m_e·n_H·μ_ISM/E` and
`-(3/4)·c·σ_T·m_e·n_H·μ_ISM/E`. -/
theorem C6_evaluators_return (E n_H : ℝ) :
    (∃ v, call_dEdtm1_ion__GeVsm1 Real.log E n_H = .ok v) ∧
    (∃ v, call_deldelEm1dEdtm1_ion__sm1 E n_H = .ok v) ∧
    (∃ v, call_dEdtm1_plasma__GeVsm1 Real.log Real.sqrt Real.pi E n_H = .ok v) ∧
    (∃ v, call_deldelEm1dEdtm1_plasma__sm1 E n_H = .ok v) ∧
    (0 < E → call_dEdtm1_ion__GeVsm1 Real.log E n_H = .ok (spec_ion_rate Real.log E n_H)) ∧
    (E ≠ 0 →
      call_deldelEm1dEdtm1_ion__sm1 E n_H =
        .ok (-(9 / 4) * c__cmsm1 * sigma_T__cm2 * m_e__GeV * n_H * (11 / 10) / E) ∧
      call_deldelEm1dEdtm1_plasma__sm1 E n_H =
        .ok (-(3 / 4) * c__cmsm1 * sigma_T__cm2 * m_e__GeV * n_H * (11 / 10) / E)) := by
  refine ⟨⟨_, rfl⟩, ⟨_, rfl⟩, ⟨_, rfl⟩, ⟨_, rfl⟩, ?_, ?_⟩
  · intro _
    simp only [call_dEdtm1_ion__GeVsm1]
    rw [dEdtm1_ion_eq]
    simp only [spec_ion_rate]
    congr 1
    ring
  · intro _
    constructor
    · simp only [call_deldelEm1dEdtm1_ion__sm1, deldelEm1dEdtm1_ion__sm1, sigma_T__cm2]
      congr 1
      ring
    · simp only [call_deldelEm1dEdtm1_plasma__sm1, deldelEm1dEdtm1_plasma__sm1, sigma_T__cm2]
      congr 1
      ring

/-- Witness of the amended C6 at `E = 2`, `n_H = -1`. -/
theorem C6_evaluators_return_witness :
    (0 : ℝ) < 2 ∧ (-1 : ℝ) ≤ 0 ∧
      call_dEdtm1_ion__GeVsm1 Real.log (2 : ℝ) (-1) = .ok (spec_ion_rate Real.log 2 (-1)) :=
  ⟨by norm_num, by norm_num, (C6_evaluators_return 2 (-1)).2.2.2.2.1 (by norm_num)⟩

/-! ## The interpolation layer -/

/-- The test of GSL on the abscissae succeeds exactly on strictly increasing
ones. -/
theorem strictly_increasing_iff (x : ℕ → ℝ) (n : ℕ) :
    strictly_increasing x n = true ↔ ∀ i, i + 1 < n → x i < x (i + 1) := by
  simp only [strictly_increasing, List.all_eq_true, List.mem_range, decide_eq_true_eq]
  constructor
  · intro h i hi
    exact h i (by omega)
  · intro h i hi
    exact h i (by omega)

/-- Adjacent strict increase gives strict increase between any two indices. -/
theorem lt_of_adjacent (x : ℕ → ℝ) (n : ℕ) (h : ∀ i, i + 1 < n → x i < x (i + 1))
    (i j : ℕ) (hij : i < j) (hj : j < n) : x i < x j := by
  induction j with
  | zero => omega
  | succ k ih =>
    rcases Nat.lt_succ_iff_lt_or_eq.mp hij with h1 | h1
    · exact lt_trans (ih h1 (by omega)) (h k hj)
    · subst h1
      exact h i hj

/-- On strictly increasing abscissae, `x r ≤ x i` forces `r ≤ i`. -/
theorem le_of_val_le (x : ℕ → ℝ) (n : ℕ) (h : ∀ i, i + 1 < n → x i < x (i + 1))
    (r i : ℕ) (hr : r < n) (hv : x r ≤ x i) : r ≤ i := by
  by_contra hc
  push_neg at hc
  exact absurd (lt_of_adjacent x n h i r hc hr) (not_lt.mpr hv)

/-- Result of the bisection on a non-empty bracket: the index stays inside
the bracket, its abscissa is at most `x` unless it is the lower end, and the
next abscissa is above `x` unless it is the upper end. -/
theorem gsl_interp_bsearch_spec (xa : ℕ → ℝ) (x : ℝ) (lo hi : ℕ) (hlt : lo < hi) :
    lo ≤ gsl_interp_bsearch xa x lo hi ∧ gsl_interp_bsearch xa x lo hi < hi ∧
    (gsl_interp_bsearch xa x lo hi = lo ∨ xa (gsl_interp_bsearch xa x lo hi) ≤ x) ∧
    (gsl_interp_bsearch xa x lo hi + 1 = hi ∨ x < xa (gsl_interp_bsearch xa x lo hi + 1)) := by
  generalize hd : hi - lo = d
  induction d using Nat.strong_induction_on generalizing lo hi with
  | _ d ih =>
    rw [gsl_interp_bsearch]
    by_cases hgap : hi > lo + 1
    · simp only [hgap, if_true]
      by_cases hmid : xa ((hi + lo) / 2) > x
      · simp only [hmid, if_true]
        have hm1 : lo < (hi + lo) / 2 := by omega
        obtain ⟨h1, h2, h3, h4⟩ := ih ((hi + lo) / 2 - lo) (by omega) lo ((hi + lo) / 2) hm1 rfl
        refine ⟨h1, by omega, h3, ?_⟩
        rcases h4 with h4 | h4
        · right
          rw [h4]
          exact hmid
        · exact Or.inr h4
      · simp only [hmid, if_false]
        have hm2 : (hi + lo) / 2 < hi := by omega
        obtain ⟨h1, h2, h3, h4⟩ := ih (hi - (hi + lo) / 2) (by omega) ((hi + lo) / 2) hi hm2 rfl
        refine ⟨by omega, h2, ?_, h4⟩
        rcases h3 with h3 | h3
        · right
          rw [h3]
          exact not_lt.mp hmid
        · exact Or.inr h3
    · simp only [hgap, if_false]
      exact ⟨le_refl _, hlt, Or.inl trivial, Or.inl (by omega)⟩

/-- The linear interpolant on an interval returns the sample at either end of
the interval. -/
theorem linear_eval_knot (x y : ℕ → ℝ) (r i : ℕ) (hdx : x r < x (r + 1))
    (hi : i = r ∨ i = r + 1) : linear_eval x y r (x i) = y i := by
  have hpos : x (r + 1) - x r > 0 := by linarith
  simp only [linear_eval, hpos, if_true]
  rcases hi with h | h
  · subst h
    simp
  · subst h
    field_simp

/-- What `gsl_so1D` returns on a table of at least two points with strictly
increasing abscissae. -/
theorem gsl_so1D_ok (n : ℕ) (x y : ℕ → ℝ) (hn : 2 ≤ n)
    (hx : ∀ i, i + 1 < n → x i < x (i + 1)) :
    gsl_so1D n x y = .ok
      { spline := { type := gsl_interp_linear, size := n, x := x, y := y,
                    xmin := x 0, xmax := x (n - 1) },
        acc := ⟨0⟩, x_lim := (x 0, x (n - 1)) } := by
  have hs : strictly_increasing x n = true := (strictly_increasing_iff x n).mpr hx
  have h1 : ¬ n < 2 := by omega
  have h2 : n > 0 := by omega
  simp [gsl_so1D, gsl_interp_accel_alloc, gsl_spline_alloc, gsl_spline_init, gsl_interp_linear,
    h1, h2, hs, bind, Except.bind, pure, Except.pure]

/-- What `gsl_so1D` returns on a table that is too short or whose abscissae
are not strictly increasing. -/
theorem gsl_so1D_error (n : ℕ) (x y : ℕ → ℝ)
    (h : n < 2 ∨ ¬ ∀ i, i + 1 < n → x i < x (i + 1)) :
    gsl_so1D n x y = .error (.gsl_error GSL_EINVAL) := by
  by_cases h1 : n < 2
  · simp [gsl_so1D, gsl_interp_accel_alloc, gsl_spline_alloc, gsl_interp_linear, h1, bind,
      Except.bind]
  · have hx : ¬ ∀ i, i + 1 < n → x i < x (i + 1) := h.resolve_left h1
    have hs : strictly_increasing x n = false := by
      rw [← Bool.not_eq_true, strictly_increasing_iff]
      exact hx
    simp [gsl_so1D, gsl_interp_accel_alloc, gsl_spline_alloc, gsl_spline_init,
      gsl_interp_linear, h1, hs, bind, Except.bind]

/-- On strictly increasing abscissae the samples are ordered as their indices. -/
theorem le_of_index_le (x : ℕ → ℝ) (n : ℕ) (h : ∀ i, i + 1 < n → x i < x (i + 1))
    (i j : ℕ) (hij : i ≤ j) (hj : j < n) : x i ≤ x j := by
  rcases Nat.lt_or_eq_of_le hij with h1 | h1
  · exact (lt_of_adjacent x n h i j h1 hj).le
  · rw [h1]

/-- The interval that the accelerator locates for a sample abscissa `x i` has
`x i` as one of its two ends, whatever interval was cached before. -/
theorem gsl_interp_accel_find_knot (x : ℕ → ℝ) (n : ℕ)
    (hx : ∀ i, i + 1 < n → x i < x (i + 1)) (i c : ℕ) (hi : i < n) (hc : c + 1 < n) :
    (gsl_interp_accel_find ⟨c⟩ x n (x i)).cache + 1 < n ∧
    (i = (gsl_interp_accel_find ⟨c⟩ x n (x i)).cache ∨
      i = (gsl_interp_accel_find ⟨c⟩ x n (x i)).cache + 1) := by
  simp only [gsl_interp_accel_find]
  by_cases h1 : x i < x c
  · simp only [h1, if_true]
    have hic : i < c := by
      by_contra hcon
      push_neg at hcon
      exact absurd (le_of_index_le x n hx c i hcon hi) (not_le.mpr h1)
    obtain ⟨_, h2, h3, h4⟩ := gsl_interp_bsearch_spec x (x i) 0 c (by omega)
    generalize gsl_interp_bsearch x (x i) 0 c = r at h2 h3 h4
    have hri : r ≤ i := by
      rcases h3 with h3 | h3
      · omega
      · exact le_of_val_le x n hx r i (by omega) h3
    have hir : i < r + 1 := by
      have hlt : x i < x (r + 1) := by
        rcases h4 with h4 | h4
        · rw [h4]
          exact h1
        · exact h4
      by_contra hcon
      push_neg at hcon
      exact absurd (le_of_index_le x n hx (r + 1) i hcon hi) (not_le.mpr hlt)
    exact ⟨by omega, Or.inl (by omega)⟩
  · simp only [h1, if_false]
    push_neg at h1
    by_cases h2 : x i ≥ x (c + 1)
    · simp only [h2, if_true]
      obtain ⟨g1, g2, g3, g4⟩ := gsl_interp_bsearch_spec x (x i) c (n - 1) (by omega)
      generalize gsl_interp_bsearch x (x i) c (n - 1) = r at g1 g2 g3 g4
      have hri : r ≤ i := by
        rcases g3 with g3 | g3
        · rw [g3]
          exact le_of_val_le x n hx c i (by omega) h1
        · exact le_of_val_le x n hx r i (by omega) g3
      refine ⟨by omega, ?_⟩
      rcases g4 with g4 | g4
      · omega
      · have hir : i < r + 1 := by
          by_contra hcon
          push_neg at hcon
          exact absurd (le_of_index_le x n hx (r + 1) i hcon hi) (not_le.mpr g4)
        exact Or.inl (by omega)
    · simp only [h2, if_false]
      push_neg at h2
      have hci : c ≤ i := le_of_val_le x n hx c i (by omega) h1
      have hic : i < c + 1 := by
        by_contra hcon
        push_neg at hcon
        exact absurd (le_of_index_le x n hx (c + 1) i hcon hi) (not_le.mpr h2)
      exact ⟨hc, Or.inl (by omega)⟩

/-- C7: round trip of the 1D interpolant.  For every `N ≥ 2`, every strictly
increasing `x[0..N-1]` and every `y[0..N-1]`, `gsl_so1D N x y` returns an
interpolant, and evaluating it with `gsl_so1D_eval` at a sample abscissa
`x[i]`, `i < N`, returns `y[i]`: for the interpolant as built, and after any
earlier evaluations (whatever interval `c` the accelerator has cached). -/
theorem C7_interp_round_trip (N : ℕ) (x y : ℕ → ℝ) (hN : 2 ≤ N)
    (hx : ∀ i, i + 1 < N → x i < x (i + 1)) :
    ∃ so, gsl_so1D N x y = .ok so ∧
      ∀ i, i < N →
        (∃ a, gsl_so1D_eval so (x i) = .ok (y i, a)) ∧
        ∀ c, c + 1 < N → ∃ a, gsl_so1D_eval { so with acc := ⟨c⟩ } (x i) = .ok (y i, a) := by
  refine ⟨_, gsl_so1D_ok N x y hN hx, ?_⟩
  have key : ∀ i, i < N → ∀ c, c + 1 < N →
      ∃ a, gsl_spline_eval
        ({ type := gsl_interp_linear, size := N, x := x, y := y,
           xmin := x 0, xmax := x (N - 1) } : gsl_spline ℝ) (x i) ⟨c⟩ = .ok (y i, a) := by
    intro i hi c hc
    have hlo : ¬ x i < x 0 := not_lt.mpr (le_of_index_le x N hx 0 i (Nat.zero_le _) hi)
    have hhi : ¬ x i > x (N - 1) :=
      not_lt.mpr (le_of_index_le x N hx i (N - 1) (by omega) (by omega))
    obtain ⟨hr, hir⟩ := gsl_interp_accel_find_knot x N hx i c hi hc
    refine ⟨gsl_interp_accel_find ⟨c⟩ x N (x i), ?_⟩
    simp only [gsl_spline_eval, hlo, hhi, or_self, if_false]
    rw [linear_eval_knot x y _ i (hx _ hr) hir]
  intro i hi
  exact ⟨key i hi 0 (by omega), fun c hc => key i hi c hc⟩

/-- Witness of C7 on the three samples `(0, 0), (1, 2), (2, 4)`. -/
theorem C7_interp_round_trip_witness :
    2 ≤ 3 ∧ ∃ so, gsl_so1D 3 (fun i => (i : ℝ)) (fun i => 2 * (i : ℝ)) = .ok so ∧
      ∀ i, i < 3 →
        (∃ a, gsl_so1D_eval so ((fun i : ℕ => (i : ℝ)) i)
          = .ok ((fun i : ℕ => 2 * (i : ℝ)) i, a)) ∧
        ∀ c, c + 1 < 3 → ∃ a, gsl_so1D_eval { so with acc := ⟨c⟩ } ((fun i : ℕ => (i : ℝ)) i)
          = .ok ((fun i : ℕ => 2 * (i : ℝ)) i, a) :=
  ⟨by norm_num,
   C7_interp_round_trip 3 (fun i => (i : ℝ)) (fun i => 2 * (i : ℝ)) (by norm_num)
     (fun i _ => by push_cast; linarith)⟩

/-- C8: building an interpolant fails on a bad table.  Whenever `n` is below
the minimum of 2 points or `x` is not strictly increasing, `gsl_so1D n x y`
ends in the error `GSL_EINVAL` and returns no interpolant at all (so neither
a sorted nor any other usable one). -/
theorem C8_build_fails_on_bad_table (n : ℕ) (x y : ℕ → ℝ)
    (h : n < 2 ∨ ¬ ∀ i, i + 1 < n → x i < x (i + 1)) :
    gsl_so1D n x y = .error (.gsl_error GSL_EINVAL) ∧ ∀ so, gsl_so1D n x y ≠ .ok so := by
  have he := gsl_so1D_error n x y h
  refine ⟨he, ?_⟩
  intro so hso
  rw [he] at hso
  exact absurd hso (by simp)

/-- Witness of C8 on the abscissae `(1.0, 2.0, 0.5)`. -/
theorem C8_build_fails_on_bad_table_witness :
    (¬ ∀ i, i + 1 < 3 →
        (fun i : ℕ => ([1.0, 2.0, 0.5] : List ℝ).getD i 0) i
          < (fun i : ℕ => ([1.0, 2.0, 0.5] : List ℝ).getD i 0) (i + 1)) ∧
    gsl_so1D 3 (fun i : ℕ => ([1.0, 2.0, 0.5] : List ℝ).getD i 0) (fun _ => (0 : ℝ))
      = .error (.gsl_error GSL_EINVAL) := by
  have hbad : ¬ ∀ i, i + 1 < 3 →
      (fun i : ℕ => ([1.0, 2.0, 0.5] : List ℝ).getD i 0) i
        < (fun i : ℕ => ([1.0, 2.0, 0.5] : List ℝ).getD i 0) (i + 1) := by
    intro hall
    have h1 := hall 1 (by norm_num)
    norm_num at h1
  exact ⟨hbad, (C8_build_fails_on_bad_table 3 _ (fun _ => (0 : ℝ)) (Or.inr hbad)).1⟩

/-- An interpolant returned by `gsl_so1D` records in `x_lim` the bounds that
its spline recorded at build time. -/
theorem gsl_so1D_bounds (n : ℕ) (x y : ℕ → ℝ) (so : gsl_spline_object_1D ℝ)
    (hso : gsl_so1D n x y = .ok so) :
    so.spline.xmin = so.x_lim.1 ∧ so.spline.xmax = so.x_lim.2 := by
  by_cases h : n < 2 ∨ ¬ ∀ i, i + 1 < n → x i < x (i + 1)
  · rw [gsl_so1D_error n x y h] at hso
    exact absurd hso (by simp)
  · push_neg at h
    rw [gsl_so1D_ok n x y (by omega) h.2] at hso
    injection hso with hso
    subst hso
    exact ⟨rfl, rfl⟩

/-- An interpolant returned by `gsl_so2D` records in `x_lim` and `y_lim` the
bounds that its spline recorded at build time. -/
theorem gsl_so2D_bounds (nx ny : ℕ) (x y z : ℕ → ℝ) (so : gsl_spline_object_2D ℝ)
    (hso : gsl_so2D nx ny x y z = .ok so) :
    so.spline.xmin = so.x_lim.1 ∧ so.spline.xmax = so.x_lim.2 ∧
    so.spline.ymin = so.y_lim.1 ∧ so.spline.ymax = so.y_lim.2 := by
  simp only [gsl_so2D, gsl_interp_accel_alloc, gsl_spline2d_alloc, gsl_spline2d_init,
    gsl_interp2d_bilinear, bind, Except.bind, pure, Except.pure] at hso
  by_cases h1 : nx < 2 ∨ ny < 2
  · simp [h1] at hso
  · simp only [h1, if_false] at hso
    by_cases h2 : strictly_increasing x nx = true
    · by_cases h3 : strictly_increasing y ny = true
      · have hx0 : nx > 0 := by omega
        have hy0 : ny > 0 := by omega
        simp [h2, h3, hx0, hy0] at hso
        subst hso
        exact ⟨rfl, rfl, rfl, rfl⟩
      · simp [h2, h3] at hso
    · simp [h2] at hso

/-- C9: evaluation outside the recorded domain is an error.  For every
interpolant `so` built by `gsl_so1D`, in whatever state `a` its accelerator
is, `gsl_so1D_eval so x` ends in the out-of-domain error `GSL_EDOM` (and
returns no number) whenever `x < so.x_lim[0]` or `x > so.x_lim[1]`; likewise
`gsl_so2D_eval so x y` for an interpolant built by `gsl_so2D` whenever `x` is
outside `so.x_lim` or `y` is outside `so.y_lim`. -/
theorem C9_eval_out_of_domain :
    (∀ (n : ℕ) (x y : ℕ → ℝ) (so : gsl_spline_object_1D ℝ) (a : gsl_interp_accel) (xq : ℝ),
      gsl_so1D n x y = .ok so → (xq < so.x_lim.1 ∨ xq > so.x_lim.2) →
        gsl_so1D_eval { so with acc := a } xq = .error (.gsl_error GSL_EDOM)) ∧
    (∀ (nx ny : ℕ) (x y z : ℕ → ℝ) (so : gsl_spline_object_2D ℝ) (xa ya : gsl_interp_accel)
      (xq yq : ℝ),
      gsl_so2D nx ny x y z = .ok so →
        ((xq < so.x_lim.1 ∨ xq > so.x_lim.2) ∨ (yq < so.y_lim.1 ∨ yq > so.y_lim.2)) →
        gsl_so2D_eval { so with xacc := xa, yacc := ya } xq yq
          = .error (.gsl_error GSL_EDOM)) := by
  constructor
  · intro n x y so a xq hso hout
    obtain ⟨h1, h2⟩ := gsl_so1D_bounds n x y so hso
    simp only [gsl_so1D_eval, gsl_spline_eval, h1, h2, hout, if_true]
  · intro nx ny x y z so xa ya xq yq hso hout
    obtain ⟨h1, h2, h3, h4⟩ := gsl_so2D_bounds nx ny x y z so hso
    simp only [gsl_so2D_eval, gsl_spline2d_eval, h1, h2, h3, h4]
    rcases hout with hout | hout
    · simp only [hout, if_true]
    · simp only [hout, if_true]
      split <;> rfl

/-- Witness of C9: the interpolant of `(0, 0), (1, 2)` evaluated at `5`, and
the 2D interpolant of a `2 × 2` table on `[0, 1] × [0, 1]` evaluated at
`(0.5, -1)`. -/
theorem C9_eval_out_of_domain_witness :
    (∃ so : gsl_spline_object_1D ℝ,
      gsl_so1D 2 (fun i => (i : ℝ)) (fun i => 2 * (i : ℝ)) = .ok so ∧
      ((5 : ℝ) < so.x_lim.1 ∨ (5 : ℝ) > so.x_lim.2) ∧
      gsl_so1D_eval { so with acc := ⟨0⟩ } 5 = .error (.gsl_error GSL_EDOM)) ∧
    (∃ so : gsl_spline_object_2D ℝ,
      gsl_so2D 2 2 (fun i => (i : ℝ)) (fun i => (i : ℝ)) (fun _ => (1 : ℝ)) = .ok so ∧
      gsl_so2D_eval { so with xacc := ⟨0⟩, yacc := ⟨0⟩ } 0.5 (-1)
        = .error (.gsl_error GSL_EDOM)) := by
  have h1 := gsl_so1D_ok 2 (fun i => (i : ℝ)) (fun i => 2 * (i : ℝ)) (by norm_num)
    (fun i _ => by push_cast; linarith)
  have hinc : strictly_increasing (fun i : ℕ => (i : ℝ)) 2 = true :=
    (strictly_increasing_iff _ 2).mpr (fun i _ => by push_cast; linarith)
  have h2 : ∃ so : gsl_spline_object_2D ℝ,
      gsl_so2D 2 2 (fun i => (i : ℝ)) (fun i => (i : ℝ)) (fun _ => (1 : ℝ)) = .ok so ∧
        so.y_lim = ((0 : ℝ), (1 : ℝ)) := by
    simp [gsl_so2D, gsl_interp_accel_alloc, gsl_spline2d_alloc, gsl_spline2d_init,
      gsl_interp2d_bilinear, bind, Except.bind, pure, Except.pure, hinc]
  obtain ⟨so2, hso2, hy⟩ := h2
  refine ⟨⟨_, h1, ?_, ?_⟩, ⟨so2, hso2, ?_⟩⟩
  · right
    norm_num
  · exact C9_eval_out_of_domain.1 2 _ _ _ ⟨0⟩ 5 h1 (Or.inr (by norm_num))
  · exact C9_eval_out_of_domain.2 2 2 _ _ _ so2 ⟨0⟩ ⟨0⟩ 0.5 (-1) hso2
      (Or.inr (Or.inl (by rw [hy]; norm_num)))

/-! ## The energy grid -/

/-- The loop `for (i = 0; i < n; i++) array[i] = f i` writes `f i` into the
first `n` elements and leaves the others as they were. -/
theorem foldl_update_range (f : ℕ → ℝ) (arr : ℕ → ℝ) (n j : ℕ) :
    (List.range n).foldl (fun (a : ℕ → ℝ) i => Function.update a i (f i)) arr j
      = if j < n then f j else arr j := by
  induction n with
  | zero => simp
  | succ k ih =>
    rw [List.range_succ, List.foldl_append]
    simp only [List.foldl_cons, List.foldl_nil]
    by_cases hjk : j = k
    · subst hjk
      simp
    · rw [Function.update_noteq hjk, ih]
      by_cases hlt : j < k
      · simp [hlt, Nat.lt_succ_of_lt hlt]
      · have : ¬ j < k + 1 := by omega
        simp [hlt, this]

/-- What `logspace_array` returns and writes on an accepted input. -/
theorem logspace_array_ok (n : ℕ) (min max : ℝ) (arr : ℕ → ℝ)
    (hn : n ≠ 0) (hmin : 0 < min) (hlt : min < max) :
    logspace_array (Real.logb 10) Real.rpow n min max (some arr) =
      (0, some fun j =>
        if j < n then
          (10 : ℝ) ^ (Real.logb 10 min
            + (j : ℝ) * ((Real.logb 10 max - Real.logb 10 min) / ((n : ℝ) - 1)))
        else arr j) := by
  have h1 : ¬ min ≤ 0 := not_le.mpr hmin
  have h2 : ¬ max ≤ 0 := not_le.mpr (lt_trans hmin hlt)
  have h3 : ¬ min ≥ max := not_le.mpr hlt
  simp only [logspace_array, hn, h1, h2, h3, Option.isNone_some, or_self, Bool.false_eq_true,
    if_false, Option.map_some']
  congr 2
  funext j
  rw [foldl_update_range]
  norm_num

/-- C10: the energy grid is strictly increasing.  For every `n ≥ 2` and
`0 < min < max`, `logspace_array n min max array` returns 0 and the array it
writes satisfies `array[i] < array[i+1]` for every `i` with `i + 1 < n`, and
every written element is positive. -/
theorem C10_logspace_strictly_increasing (n : ℕ) (min max : ℝ) (arr : ℕ → ℝ)
    (hn : 2 ≤ n) (hmin : 0 < min) (hlt : min < max) :
    ∃ out, logspace_array (Real.logb 10) Real.rpow n min max (some arr) = (0, some out) ∧
      (∀ i, i + 1 < n → out i < out (i + 1)) ∧ (∀ i, i < n → 0 < out i) := by
  refine ⟨_, logspace_array_ok n min max arr (by omega) hmin hlt, ?_, ?_⟩
  · intro i hi
    have hi0 : i < n := by omega
    simp only [hi, hi0, if_true]
    have hlog : Real.logb 10 min < Real.logb 10 max :=
      Real.logb_lt_logb (by norm_num) hmin hlt
    have hn1 : (0 : ℝ) < (n : ℝ) - 1 := by
      have : (2 : ℝ) ≤ (n : ℝ) := by exact_mod_cast hn
      linarith
    have hdelta : 0 < (Real.logb 10 max - Real.logb 10 min) / ((n : ℝ) - 1) :=
      div_pos (by linarith) hn1
    apply Real.rpow_lt_rpow_of_exponent_lt (by norm_num)
    push_cast
    nlinarith
  · intro i hi
    simp only [hi, if_true]
    exact Real.rpow_pos_of_pos (by norm_num) _

/-- Witness of C10 for three points between 1 and 100. -/
theorem C10_logspace_strictly_increasing_witness :
    2 ≤ 3 ∧ (0 : ℝ) < 1 ∧ (1 : ℝ) < 100 ∧
      ∃ out, logspace_array (Real.logb 10) Real.rpow 3 1 100 (some fun _ => (0 : ℝ))
          = (0, some out) ∧
        (∀ i, i + 1 < 3 → out i < out (i + 1)) ∧ (∀ i, i < 3 → 0 < out i) :=
  ⟨by norm_num, by norm_num, by norm_num,
   C10_logspace_strictly_increasing 3 1 100 (fun _ => 0) (by norm_num) (by norm_num)
     (by norm_num)⟩

/-! ## Return code and values of logspace_array -/

/-- C11: `logspace_array n min max array` returns 1 if and only if `n = 0`
or `min ≤ 0` or `max ≤ 0` or `min ≥ max` or `array` is null, and returns 0
otherwise; when it returns 1 it writes no element (the memory behind `array`
is as before the call). -/
theorem C11_logspace_return_code (log10 : ℝ → ℝ) (pow : ℝ → ℝ → ℝ) (n : ℕ) (min max : ℝ)
    (array : Option (ℕ → ℝ)) :
    ((logspace_array log10 pow n min max array).1 = 1 ↔
      (n = 0 ∨ min ≤ 0 ∨ max ≤ 0 ∨ min ≥ max ∨ array = none)) ∧
    (¬ (n = 0 ∨ min ≤ 0 ∨ max ≤ 0 ∨ min ≥ max ∨ array = none) →
      (logspace_array log10 pow n min max array).1 = 0) ∧
    ((logspace_array log10 pow n min max array).1 = 1 →
      (logspace_array log10 pow n min max array).2 = array) := by
  have hnone : array.isNone = true ↔ array = none := Option.isNone_iff_eq_none
  by_cases hc : n = 0 ∨ min ≤ 0 ∨ max ≤ 0 ∨ min ≥ max ∨ array.isNone = true
  · have hc2 : n = 0 ∨ min ≤ 0 ∨ max ≤ 0 ∨ min ≥ max ∨ array = none := by
      rw [← hnone]
      exact hc
    have hv : logspace_array log10 pow n min max array = (1, array) := by
      simp only [logspace_array, hc, if_true]
    rw [hv]
    exact ⟨⟨fun _ => hc2, fun _ => rfl⟩, fun h => absurd hc2 h, fun _ => rfl⟩
  · have hc2 : ¬ (n = 0 ∨ min ≤ 0 ∨ max ≤ 0 ∨ min ≥ max ∨ array = none) := by
      rw [← hnone]
      exact hc
    have hv : (logspace_array log10 pow n min max array).1 = 0 := by
      simp only [logspace_array, hc, if_false]
    rw [hv]
    exact ⟨⟨fun h => absurd h (by norm_num), fun h => absurd h hc2⟩, fun _ => rfl,
      fun h => absurd h (by norm_num)⟩

/-- Witness of C11 on inverted bounds: `logspace_array 3 100 1 array` returns
1 and leaves the memory as it was. -/
theorem C11_logspace_return_code_witness :
    (logspace_array (Real.logb 10) Real.rpow 3 100 1 (some fun _ => (0 : ℝ))).1 = 1 ∧
    ((logspace_array (Real.logb 10) Real.rpow 3 100 1 (some fun _ => (0 : ℝ))).2
      = some fun _ => (0 : ℝ)) := by
  have h := C11_logspace_return_code (Real.logb 10) Real.rpow 3 100 1 (some fun _ => (0 : ℝ))
  have h1 : (logspace_array (Real.logb 10) Real.rpow 3 100 1 (some fun _ => (0 : ℝ))).1 = 1 :=
    h.1.mpr (Or.inr (Or.inr (Or.inr (Or.inl (by norm_num)))))
  exact ⟨h1, h.2.2 h1⟩

/-- The element that `logspace_array` writes at index `i`, for positive
bounds, is `min·(max/min)^(i/(n-1))`. -/
theorem logspace_value_eq (n i : ℕ) (min max : ℝ) (hmin : 0 < min) (hmax : 0 < max) :
    (10 : ℝ) ^ (Real.logb 10 min
        + (i : ℝ) * ((Real.logb 10 max - Real.logb 10 min) / ((n : ℝ) - 1)))
      = min * (max / min) ^ ((i : ℝ) / ((n : ℝ) - 1)) := by
  have h10 : (0 : ℝ) < 10 := by norm_num
  have h10ne : (10 : ℝ) ≠ 1 := by norm_num
  have hq : 0 < max / min := div_pos hmax hmin
  rw [Real.rpow_add h10, Real.rpow_logb h10 h10ne hmin,
    ← Real.logb_div hmax.ne' hmin.ne']
  congr 1
  have he : (i : ℝ) * (Real.logb 10 (max / min) / ((n : ℝ) - 1))
      = Real.logb 10 (max / min) * ((i : ℝ) / ((n : ℝ) - 1)) := by ring
  rw [he, Real.rpow_mul h10.le, Real.rpow_logb h10 h10ne hq]

/-- C16: the grid is logarithmic between the bounds.  For every `n ≥ 2` and
`0 < min < max`, `logspace_array` returns 0 and writes
`array[i] = min·(max/min)^(i/(n-1))` for every `i < n`, so `array[0] = min`,
`array[n-1] = max` and the ratio `array[i+1]/array[i]` is the same for every
`i`, namely `(max/min)^(1/(n-1))`. -/
theorem C16_logspace_is_logarithmic (n : ℕ) (min max : ℝ) (arr : ℕ → ℝ)
    (hn : 2 ≤ n) (hmin : 0 < min) (hlt : min < max) :
    ∃ out, logspace_array (Real.logb 10) Real.rpow n min max (some arr) = (0, some out) ∧
      (∀ i, i < n → out i = min * (max / min) ^ ((i : ℝ) / ((n : ℝ) - 1))) ∧
      out 0 = min ∧ out (n - 1) = max ∧
      (∀ i, i + 1 < n → out (i + 1) / out i = (max / min) ^ ((1 : ℝ) / ((n : ℝ) - 1))) := by
  have hmax : 0 < max := lt_trans hmin hlt
  have hq : 0 < max / min := div_pos hmax hmin
  have hn1 : (0 : ℝ) < (n : ℝ) - 1 := by
    have : (2 : ℝ) ≤ (n : ℝ) := by exact_mod_cast hn
    linarith
  have hval : ∀ i, i < n →
      (fun j => if j < n then
          (10 : ℝ) ^ (Real.logb 10 min
            + (j : ℝ) * ((Real.logb 10 max - Real.logb 10 min) / ((n : ℝ) - 1)))
        else arr j) i = min * (max / min) ^ ((i : ℝ) / ((n : ℝ) - 1)) := by
    intro i hi
    simp only [hi, if_true]
    exact logspace_value_eq n i min max hmin hmax
  refine ⟨_, logspace_array_ok n min max arr (by omega) hmin hlt, hval, ?_, ?_, ?_⟩
  · refine (hval 0 (by omega)).trans ?_
    simp
  · refine (hval (n - 1) (by omega)).trans ?_
    have hc : ((n - 1 : ℕ) : ℝ) = (n : ℝ) - 1 := by
      rw [Nat.cast_sub (by omega)]
      simp
    rw [hc, div_self hn1.ne', Real.rpow_one]
    field_simp
  · intro i hi
    have e1 := hval (i + 1) hi
    have e2 := hval i (by omega)
    simp only [] at e1 e2
    rw [e1, e2]
    have hpos : 0 < (max / min) ^ ((i : ℝ) / ((n : ℝ) - 1)) := Real.rpow_pos_of_pos hq _
    have hsplit : (((i + 1 : ℕ) : ℝ)) / ((n : ℝ) - 1)
        = (i : ℝ) / ((n : ℝ) - 1) + 1 / ((n : ℝ) - 1) := by
      push_cast
      ring
    rw [hsplit, Real.rpow_add hq]
    field_simp
    ring

/-- Witness of C16 for three points between 1 and 100. -/
theorem C16_logspace_is_logarithmic_witness :
    2 ≤ 3 ∧ (0 : ℝ) < 1 ∧ (1 : ℝ) < 100 ∧
      ∃ out, logspace_array (Real.logb 10) Real.rpow 3 1 100 (some fun _ => (0 : ℝ))
          = (0, some out) ∧
        (∀ i, i < 3 → out i = 1 * (100 / 1) ^ ((i : ℝ) / (((3 : ℕ) : ℝ) - 1))) ∧
        out 0 = 1 ∧ out (3 - 1) = 100 ∧
        (∀ i, i + 1 < 3 → out (i + 1) / out i = (100 / 1) ^ ((1 : ℝ) / (((3 : ℕ) : ℝ) - 1))) :=
  ⟨by norm_num, by norm_num, by norm_num,
   C16_logspace_is_logarithmic 3 1 100 (fun _ => 0) (by norm_num) (by norm_num)
     (by norm_num)⟩

/-- C17 (the code at the failing input `n = 1`, `min = 1`, `max = 10`):
`logspace_array` accepts the input (return code 0) and computes the element
it writes with the step `(log10 max - log10 min) / (n - 1.0)`, whose divisor
`n - 1.0` is zero; `linspace_array` on the same input takes its `n == 1`
branch and writes `min` without a division. -/
theorem C17_logspace_divides_by_zero :
    logspace_array (Real.logb 10) Real.rpow 1 1 10 (some fun _ => (0 : ℝ))
      = (0, some (Function.update (fun _ => (0 : ℝ)) 0
          (Real.rpow 10.0 (Real.logb 10 1
            + ((0 : ℕ) : ℝ) * ((Real.logb 10 10 - Real.logb 10 1) / logspace_array_divisor 1))))) ∧
    logspace_array_divisor 1 = (0 : ℝ) ∧
    linspace_array 1 (1 : ℝ) 10 (some fun _ => (0 : ℝ))
      = (0, some (Function.update (fun _ => (0 : ℝ)) 0 1)) := by
  refine ⟨?_, ?_, ?_⟩
  · have h1 : ¬ ((1 : ℝ) ≤ 0) := by norm_num
    have h2 : ¬ ((10 : ℝ) ≤ 0) := by norm_num
    have h3 : ¬ ((1 : ℝ) ≥ 10) := by norm_num
    have hr : List.range 1 = [0] := rfl
    simp only [logspace_array, logspace_array_divisor, h1, h2, h3, Option.isNone_some,
      Bool.false_eq_true, one_ne_zero, or_self, if_false, Option.map_some', hr,
      List.foldl_cons, List.foldl_nil]
  · norm_num [logspace_array_divisor]
  · have h3 : ¬ ((1 : ℝ) ≥ 10) := by norm_num
    simp only [linspace_array, h3, Option.isNone_some, Bool.false_eq_true, one_ne_zero, or_self,
      if_false, if_true, Option.map_some']

/-! ## The ionisation loss time -/

/-- C19: on the physical energy range the ionisation loss time is well
defined and positive.  For every `E_e ≥ m_e__GeV` and every `n_H > 0`,
`dEdtm1_ion__GeVsm1 E_e n_H` is strictly negative, so the divisor in
`tau_ion__s E_e n_H = -E_e / dEdtm1_ion__GeVsm1 E_e n_H` is not zero, and
`tau_ion__s E_e n_H > 0`. -/
theorem C19_tau_ion_positive (E_e n_H : ℝ) (hE : m_e__GeV ≤ E_e) (hn : 0 < n_H) :
    dEdtm1_ion__GeVsm1 Real.log E_e n_H < 0 ∧
    dEdtm1_ion__GeVsm1 Real.log E_e n_H ≠ 0 ∧
    0 < tau_ion__s Real.log E_e n_H := by
  have hm : (0 : ℝ) < m_e__GeV := m_e__GeV_pos
  have hEpos : 0 < E_e := lt_of_lt_of_le hm hE
  have hneg : dEdtm1_ion__GeVsm1 Real.log E_e n_H < 0 := by
    rw [dEdtm1_ion_neg_iff _ _ hn]
    have hK := ion_bracket_const_bounds.1
    have hg : 0 ≤ Real.log (E_e / m_e__GeV) :=
      Real.log_nonneg ((one_le_div hm).mpr hE)
    linarith
  refine ⟨hneg, hneg.ne, ?_⟩
  simp only [tau_ion__s]
  apply div_pos_of_neg_of_neg _ hneg
  norm_num
  exact hEpos

/-- Witness of C19 at `E_e = 1` GeV, `n_H = 1`. -/
theorem C19_tau_ion_positive_witness :
    (m_e__GeV : ℝ) ≤ 1 ∧ (0 : ℝ) < 1 ∧ 0 < tau_ion__s Real.log (1 : ℝ) 1 :=
  ⟨by norm_num [m_e__GeV], by norm_num,
   (C19_tau_ion_positive 1 1 (by norm_num [m_e__GeV]) (by norm_num)).2.2⟩

/-! ## The binding layer -/

/-- What `logspace_array_wrapper` returns when the output has as many
elements as `n` asks for: no test of the bounds is made. -/
theorem logspace_array_wrapper_ok (n : ℤ) (min max : ℝ) (output : buffer_info ℝ)
    (hsize : output.size = (n % 2 ^ 64).toNat) :
    logspace_array_wrapper (Real.logb 10) Real.rpow n min max output =
      .ok { size := output.size,
            ptr := fun j =>
              if j < n.toNat then
                (10 : ℝ) ^ (Real.logb 10 min
                  + (j : ℝ) * ((Real.logb 10 max - Real.logb 10 min) / ((n : ℝ) - 1)))
              else output.ptr j } := by
  simp only [logspace_array_wrapper, hsize, ne_eq, not_true_eq_false, if_false]
  congr 2
  funext j
  rw [foldl_update_range]
  norm_num

/-- C12 (the code at the failing input `n = 3`, `min = 100`, `max = 1`, an
output of 3 elements): `logspace_array_wrapper` throws nothing and fills the
output with `100, 10, 1`, while `logspace_array` returns 1 on the same
bounds. -/
theorem C12_wrapper_accepts_inverted_bounds :
    (∃ out, logspace_array_wrapper (Real.logb 10) Real.rpow 3 100 1 ⟨3, fun _ => (0 : ℝ)⟩
        = .ok out ∧ out.size = 3 ∧ out.ptr 0 = 100 ∧ out.ptr 1 = 10 ∧ out.ptr 2 = 1) ∧
    (logspace_array (Real.logb 10) Real.rpow 3 100 1 (some fun _ => (0 : ℝ))).1 = 1 := by
  have hl100 : Real.logb 10 100 = 2 := by
    have h : (100 : ℝ) = 10 ^ (2 : ℝ) := by norm_num
    rw [h, Real.logb_rpow (by norm_num) (by norm_num)]
  have hl1 : Real.logb 10 1 = 0 := Real.logb_one
  constructor
  · refine ⟨_, logspace_array_wrapper_ok 3 100 1 ⟨3, fun _ => (0 : ℝ)⟩ (by decide), rfl,
      ?_, ?_, ?_⟩
    · simp only [hl100, hl1]
      norm_num
    · simp only [hl100, hl1]
      norm_num
    · simp only [hl100, hl1]
      norm_num
  · have h3 : (100 : ℝ) ≥ 1 := by norm_num
    simp [logspace_array, h3]

/-- The example table is accepted by `gsl_so1D`. -/
theorem gsl_so1D_ex_buffer :
    gsl_so1D 2 (ex_buffer (α := ℝ)).ptr (ex_buffer (α := ℝ)).ptr = .ok ex_so_of_buffer :=
  gsl_so1D_ok 2 (ex_buffer (α := ℝ)).ptr (ex_buffer (α := ℝ)).ptr (by norm_num)
    (fun i _ => by simp [ex_buffer])

/-- The example interpolant through `(1, y0)`, `(2, y1)` evaluated at 1, from
the first cached interval. -/
theorem ex_so_eval_one (y0 y1 : ℝ) (so : gsl_spline_object_1D ℝ)
    (hs : so.spline = (ex_so y0 y1).spline) (ha : so.acc = ⟨0⟩) :
    gsl_so1D_eval so 1 = .ok (y0, ⟨0⟩) := by
  simp only [gsl_so1D_eval, gsl_spline_eval, gsl_interp_accel_find, linear_eval, hs, ha, ex_so]
  norm_num

/-- The example interpolant through `(1, y0)`, `(2, y1)` evaluated at 2, from
the first cached interval. -/
theorem ex_so_eval_two (y0 y1 : ℝ) (so : gsl_spline_object_1D ℝ)
    (hs : so.spline = (ex_so y0 y1).spline) (ha : so.acc = ⟨0⟩) :
    gsl_so1D_eval so 2 = .ok (y1, ⟨0⟩) := by
  have hb : gsl_interp_bsearch (fun i : ℕ => (i : ℝ) + 1) 2 0 (2 - 1) = 0 := by
    rw [gsl_interp_bsearch]
    simp
  simp only [gsl_so1D_eval, gsl_spline_eval, gsl_interp_accel_find, linear_eval, hs, ha, ex_so]
  norm_num [hb]

/-- The loop over the energies 1 and 2 on two example interpolants. -/
theorem eval_qe_out_ex (a b c d : ℝ) :
    eval_qe_out (ex_so a b) (ex_so c d) [1, 2] = .ok ([a, b], [c, d]) := by
  simp only [eval_qe_out, bind, Except.bind, pure, Except.pure]
  rw [ex_so_eval_one a b (ex_so a b) rfl rfl, ex_so_eval_one c d (ex_so c d) rfl rfl]
  simp only []
  rw [ex_so_eval_two a b
      { spline := (ex_so a b).spline, acc := ⟨0⟩, x_lim := (ex_so a b).x_lim } rfl rfl,
    ex_so_eval_two c d
      { spline := (ex_so c d).spline, acc := ⟨0⟩, x_lim := (ex_so c d).x_lim } rfl rfl]

/-- The arguments passed to `CRe_steadystate_solve` on the example call:
the two 2D spline objects are the contents `gA`, `gB` of the uninitialised
locals. -/
theorem CRe_steadystate_solve_wrapper_args_ex (gA gB : gsl_spline_object_2D ℝ) :
    CRe_steadystate_solve_wrapper_args gA gB 0 ex_buffer 2 1 1 1 0
        ex_buffer ex_buffer ex_buffer ex_buffer ex_buffer ex_buffer
        ex_buffer ex_buffer ex_buffer ex_buffer ex_buffer
      = .ok { structure_ := 0, E_e_lims := (1, 2), n_E := 2, n_H__cmm3 := 1, B__G := 1,
              h__pc := 1, n_gso2D := 0, gso2D_IC_Gamma := gA, gso2D_BS := gB,
              De_gso1D := ex_so_of_buffer, gso_1D_Q_inject_1 := ex_so_of_buffer,
              gso_1D_Q_inject_2 := ex_so_of_buffer } := by
  have hsz : (ex_buffer (α := ℝ)).size = 2 := rfl
  have h0 : (ex_buffer (α := ℝ)).ptr 0 = 1 := by simp [ex_buffer]
  have h1 : (ex_buffer (α := ℝ)).ptr 1 = 2 := by norm_num [ex_buffer]
  simp only [CRe_steadystate_solve_wrapper_args, hsz, gsl_so1D_ex_buffer, h0, h1, bind,
    Except.bind, pure, Except.pure, ne_eq, not_true_eq_false, or_self, if_false]

/-- The example call of the wrapper with a solver that returns code 0 and the
interpolants through `(1, a), (2, b)` and `(1, c), (2, d)`: the returned array
is `[a, b]`. -/
theorem CRe_steadystate_solve_wrapper_ex
    (solve : CRe_steadystate_solve_args ℝ → ℤ × gsl_spline_object_1D ℝ × gsl_spline_object_1D ℝ)
    (gA gB : gsl_spline_object_2D ℝ) (a b c d : ℝ)
    (hs : solve
        { structure_ := 0, E_e_lims := (1, 2), n_E := 2, n_H__cmm3 := 1, B__G := 1,
          h__pc := 1, n_gso2D := 0, gso2D_IC_Gamma := gA, gso2D_BS := gB,
          De_gso1D := ex_so_of_buffer, gso_1D_Q_inject_1 := ex_so_of_buffer,
          gso_1D_Q_inject_2 := ex_so_of_buffer } = (0, ex_so a b, ex_so c d)) :
    CRe_steadystate_solve_wrapper Real.log Real.exp solve gA gB 0 ex_buffer 2 1 1 1 0
        ex_buffer ex_buffer ex_buffer ex_buffer ex_buffer ex_buffer
        ex_buffer ex_buffer ex_buffer ex_buffer ex_buffer
      = .ok [a, b] := by
  have hr : List.range (2 : ℤ).toNat = [0, 1] := rfl
  have e0 : Real.exp (Real.log 1 + (Real.log 2 - Real.log 1) * ((0 : ℕ) : ℝ)
      / (((2 : ℤ) : ℝ) - 1.0)) = 1 := by
    simp
  have e1 : Real.exp (Real.log 1 + (Real.log 2 - Real.log 1) * ((1 : ℕ) : ℝ)
      / (((2 : ℤ) : ℝ) - 1.0)) = 2 := by
    have : (((2 : ℤ) : ℝ) - 1.0) = 1 := by norm_num
    rw [this]
    simp only [Real.log_one, sub_zero, zero_add, Nat.cast_one, mul_one, div_one]
    exact Real.exp_log (by norm_num)
  simp only [CRe_steadystate_solve_wrapper, CRe_steadystate_solve_wrapper_args_ex, hs, hr, bind,
    Except.bind, pure, Except.pure, ne_eq, not_true_eq_false, if_false, List.map_cons,
    List.map_nil, e0, e1, eval_qe_out_ex]
  simp

/-- C13 (the code at a failing input): with energy limits `(1, 2)`,
`n_E = 2` and a solver that returns 0 with `qe_1_so` through `(1, 3), (2, 4)`
and `qe_2_so` through `(1, 5), (2, 6)`, the loop of the wrapper evaluates both
splines on the grid `[1, 2]`, to `[3, 4]` and `[5, 6]`, and the wrapper
returns the `n_E = 2` values `[3, 4]` of `qe_1_so` alone, not the stacked
`[3, 4, 5, 6]`. -/
theorem C13_wrapper_returns_only_qe_1 :
    CRe_steadystate_solve_wrapper Real.log Real.exp (fun _ => (0, ex_so 3 4, ex_so 5 6))
        (ex_stack 0) (ex_stack 0) 0 ex_buffer 2 1 1 1 0
        ex_buffer ex_buffer ex_buffer ex_buffer ex_buffer ex_buffer
        ex_buffer ex_buffer ex_buffer ex_buffer ex_buffer
      = .ok [3, 4] ∧
    eval_qe_out (ex_so (3 : ℝ) 4) (ex_so 5 6) [1, 2] = .ok ([3, 4], [5, 6]) :=
  ⟨CRe_steadystate_solve_wrapper_ex _ _ _ 3 4 5 6 rfl, eval_qe_out_ex 3 4 5 6⟩

/-- C14 (the code at a failing input): two calls of the wrapper with
identical arguments, made while the uninitialised locals `gso2D_IC_Gamma` and
`gso2D_BS` hold different stack contents, pass different arguments to
`CRe_steadystate_solve`; with a solver whose result follows `gso2D_BS` the
two calls return the different arrays `[0, 0]` and `[1, 1]`. -/
theorem C14_solver_arguments_not_determined :
    CRe_steadystate_solve_wrapper_args (ex_stack (0 : ℝ)) (ex_stack 0) 0 ex_buffer 2 1 1 1 0
        ex_buffer ex_buffer ex_buffer ex_buffer ex_buffer ex_buffer
        ex_buffer ex_buffer ex_buffer ex_buffer ex_buffer
      ≠ CRe_steadystate_solve_wrapper_args (ex_stack (1 : ℝ)) (ex_stack 1) 0 ex_buffer 2 1 1 1 0
        ex_buffer ex_buffer ex_buffer ex_buffer ex_buffer ex_buffer
        ex_buffer ex_buffer ex_buffer ex_buffer ex_buffer ∧
    CRe_steadystate_solve_wrapper Real.log Real.exp
        (fun args => (0, ex_so args.gso2D_BS.x_lim.1 args.gso2D_BS.x_lim.1, ex_so 0 0))
        (ex_stack 0) (ex_stack 0) 0 ex_buffer 2 1 1 1 0
        ex_buffer ex_buffer ex_buffer ex_buffer ex_buffer ex_buffer
        ex_buffer ex_buffer ex_buffer ex_buffer ex_buffer
      = .ok [0, 0] ∧
    CRe_steadystate_solve_wrapper Real.log Real.exp
        (fun args => (0, ex_so args.gso2D_BS.x_lim.1 args.gso2D_BS.x_lim.1, ex_so 0 0))
        (ex_stack 1) (ex_stack 1) 0 ex_buffer 2 1 1 1 0
        ex_buffer ex_buffer ex_buffer ex_buffer ex_buffer ex_buffer
        ex_buffer ex_buffer ex_buffer ex_buffer ex_buffer
      = .ok [1, 1] := by
  refine ⟨?_, ?_, ?_⟩
  · rw [CRe_steadystate_solve_wrapper_args_ex, CRe_steadystate_solve_wrapper_args_ex]
    intro h
    injection h with h
    have hx := congrArg (fun a : CRe_steadystate_solve_args ℝ => a.gso2D_BS.x_lim.1) h
    simp [ex_stack] at hx
  · exact CRe_steadystate_solve_wrapper_ex _ _ _ 0 0 0 0 rfl
  · exact CRe_steadystate_solve_wrapper_ex _ _ _ 1 1 0 0 rfl

/-- C15 (the code at a failing input): `eps_SY_4_wrapper` called with a
`sync_freq_table` of 3 elements and a `sync_table_1D` of 2 elements (the
spectrum pair having equal lengths) throws nothing: it calls `gsl_so1D` with
`n = 3` on the mismatched pair and returns the value of `eps_SY_4`; the same
wrapper throws when the lengths of the spectrum pair differ. -/
theorem C15_sync_pair_not_checked
    (eps_SY_4 : ℝ → ℝ → gsl_spline_object_1D ℝ → gsl_spline_object_1D ℝ → ℝ) (E_gam B : ℝ) :
    (∃ sync_so qe_so,
      gsl_so1D 3 (fun i : ℕ => (i : ℝ) + 1) (fun i : ℕ => (i : ℝ) + 1) = .ok sync_so ∧
      eps_SY_4_wrapper eps_SY_4 E_gam B ⟨3, fun i => (i : ℝ) + 1⟩ ⟨2, fun i => (i : ℝ) + 1⟩
          ex_buffer ex_buffer
        = .ok (eps_SY_4 E_gam B sync_so qe_so)) ∧
    eps_SY_4_wrapper eps_SY_4 E_gam B ex_buffer ex_buffer
        ⟨3, fun i => (i : ℝ) + 1⟩ ⟨2, fun i => (i : ℝ) + 1⟩
      = .error (.runtime_error "E_e_spectrum and qe_spectrum must have same size") := by
  have h3 := gsl_so1D_ok 3 (fun i : ℕ => (i : ℝ) + 1) (fun i : ℕ => (i : ℝ) + 1) (by norm_num)
    (fun i _ => by push_cast; linarith)
  have hsz : (ex_buffer (α := ℝ)).size = 2 := rfl
  constructor
  · refine ⟨_, ex_so_of_buffer, h3, ?_⟩
    simp only [eps_SY_4_wrapper, hsz, h3, gsl_so1D_ex_buffer, bind, Except.bind, pure,
      Except.pure, ne_eq, not_true_eq_false, if_false]
  · simp [eps_SY_4_wrapper, hsz, bind, Except.bind, throw, throwThe, MonadExceptOf.throw]

end Congruents
